import Mathlib

/-!
# NEON lowering of VFPU instructions

A shallow embedding of `Core/MIPS/ARM/ArmCompVFPUNEON.cpp`.

The handlers of that file do not compute values: they call the register
allocator (`fpr`), the emitter and the generic fallback.  The embedding
records every such call, in program order, as an `Event` appended to the
`code` list of the `Jit` state, and threads the allocator state explicitly.
A small model of the host (`Host`, `step`, `run`) gives the emitted vector
instructions their lane-level meaning.
-/

namespace MIPSComp

/-! ## Host registers, vector shapes, flags -/

/-- Host registers named by the emitter: `R i` is a core register, `Q i` a
128-bit NEON register. -/
inductive ARMReg where
  | R (i : Nat)
  | Q (i : Nat)
  deriving DecidableEq, Repr

/-- Scratch core register `R0`. -/
abbrev R0 : ARMReg := ARMReg.R 0

/-- Scratch core register `R1`. -/
abbrev R1 : ARMReg := ARMReg.R 1

/-- Scratch vector register `Q0`. -/
abbrev Q0 : ARMReg := ARMReg.Q 0

/-- The register `MEMBASEREG`, declared outside this file: the core register
that holds the host address of guest memory, taken to be `R11`. -/
abbrev MEMBASEREG : ARMReg := ARMReg.R 11

/-- Modelled from the spec: `VectorSize` is declared outside this file; the
shapes a vector operand can have are scalar, pair, triple and quad. -/
inductive VectorSize where
  | V_Single
  | V_Pair
  | V_Triple
  | V_Quad
  deriving DecidableEq, Repr

open VectorSize

/-- Modelled from the spec: `GetNumVectorElements` is defined outside this
file; the shape-derived lane count is 1, 2, 3 or 4. -/
def GetNumVectorElements : VectorSize → Nat
  | V_Single => 1
  | V_Pair => 2
  | V_Triple => 3
  | V_Quad => 4

/-- Modelled from the spec: `MAP_DIRTY` is declared with the register cache,
outside this file; the flag that marks the mapped register as written. -/
def MAP_DIRTY : Nat := 1

/-- Modelled from the spec: `MAP_NOINIT` is declared with the register cache,
outside this file; the `no-init` flag, by which the caller promises to
overwrite all lanes. -/
def MAP_NOINIT : Nat := 2

/-- The C expression `~x` on a 32-bit word. -/
def not32 (x : Nat) : Nat := 0xFFFFFFFF ^^^ (x % 2 ^ 32)

/-! ## What a handler can do -/

/-- The addresses of the `float` constants of this file that are handed to
`MOVP2R`. -/
inductive FloatPtr where
  | minus_one
  | one
  | zero
  | constantArray (k : Nat)
  | constantArrayNegated (k : Nat)
  deriving DecidableEq, Repr

/-- The three diagnostics of `NEONApplyPrefixD`, in the order of the source:
`both_sat` is "Can't have both sat[0-1] and sat[-1-1] at the same time",
`partial_sat1` is "Can't have partial sat1 mask" and `partial_sat3` is
"Can't have partial sat3 mask". -/
inductive LogMsg where
  | both_sat
  | partial_sat1
  | partial_sat3
  deriving DecidableEq, Repr

/-- One call made by a handler: an emitter call (one host instruction), a
register cache call, a diagnostic, or the generic fallback.  Each constructor
keeps the name and the arguments of the call in the source, except the
arguments that are the same at every call (the element size `F_32`, the
alignment `ALIGN_128`, the conditions `CC_EQ` and `CC_AL`).  `VABS_F32` and
`VNEG_F32` are the NEON forms, called with `F_32`; `VABS` is the two-argument
overload that `CompNEON_VV2Op` calls after `VSQRT`. -/
inductive Event where
  | MOVP2R (rd : ARMReg) (p : FloatPtr)
  | VLD1_lane (vd rn : ARMReg) (lane : Nat) (aligned : Bool)
  | VLD1_all_lanes (vd rn : ARMReg) (aligned : Bool)
  | VMOV (vd vm : ARMReg)
  | VDUP (vd vm : ARMReg) (lane : Nat)
  | VABS_F32 (vd vm : ARMReg)
  | VNEG_F32 (vd vm : ARMReg)
  | VMIN (vd vn vm : ARMReg)
  | VMAX (vd vn vm : ARMReg)
  | VADD (vd vn vm : ARMReg)
  | VSUB (vd vn vm : ARMReg)
  | VMUL (vd vn vm : ARMReg)
  | VDIV (vd vn vm : ARMReg)
  | VSQRT (vd vm : ARMReg)
  | VABS (vd vm : ARMReg)
  | VLD1 (vd rn : ARMReg) (regCount : Nat)
  | VST1 (vd rn : ARMReg) (regCount : Nat)
  | ADD (rd rn rm : ARMReg)
  | B_CC_EQ
  | SetJumpTarget
  | SetCC_AL
  | SetR0ToEffectiveAddress (rs : Nat) (imm : Int)
  | SetCCAndR0ForSafeAddress (rs : Nat) (imm : Int) (tmp : ARMReg)
  | gprSetRegImm (r : ARMReg) (v : Nat)
  | gprMapReg (rs : Nat)
  | QMapReg (mipsReg : Nat) (sz : VectorSize) (mapFlags : Nat)
  | QAllocTemp
  | ReleaseSpillLocksAndDiscardTemps
  | ELOG (msg : LogMsg)
  | Comp_Generic (op : Nat)
  deriving DecidableEq, Repr

/-- The vector register cache `fpr`.  Its code is outside this file, so its
three operations are parameters: each takes the cache state and returns the
new one, the two mapping calls also the host register they hand out. -/
structure RegCache (σ : Type) where
  QMapReg : σ → Nat → VectorSize → Nat → ARMReg × σ
  QAllocTemp : σ → ARMReg × σ
  ReleaseSpillLocksAndDiscardTemps : σ → σ

/-- The part of the compiler state a handler changes: the register cache and
the calls made so far (oldest first). -/
structure Jit (σ : Type) where
  fpr : σ
  code : List Event

/-- The block-level prefix state `js`.  `HasUnknownPrefix()` and
`HasNoPrefix()` are defined outside this file and are taken as given. -/
structure JitState where
  prefixS : Nat
  prefixT : Nat
  prefixD : Nat
  HasUnknownPrefix : Bool
  HasNoPrefix : Bool

/-- The opcode field helpers `_VS`, `_VT`, `_VD`, `_RS` and `GetVecSize`,
which are declared outside this file and are taken as given. -/
structure OpFields where
  VS : Nat → Nat
  VT : Nat → Nat
  VD : Nat → Nat
  RS : Nat → Nat
  GetVecSize : Nat → VectorSize

/-- The general purpose register cache and configuration read by
`CompNEON_SVQ`: `gpr.IsImm`, `gpr.GetImm`, `g_Config.bFastMemory` and
`(u32)Memory::base`, all outside this file. -/
structure GprEnv where
  IsImm : Nat → Bool
  GetImm : Nat → Nat
  bFastMemory : Bool
  memoryBase : Nat

variable {σ : Type}

/-- Record one call. -/
def Jit.emit (j : Jit σ) (e : Event) : Jit σ :=
  { j with code := j.code ++ [e] }

/-- The call `fpr.QMapReg(mipsReg, sz, mapFlags)`. -/
def Jit.QMapReg (rc : RegCache σ) (j : Jit σ) (mipsReg : Nat) (sz : VectorSize)
    (mapFlags : Nat) : ARMReg × Jit σ :=
  ((rc.QMapReg j.fpr mipsReg sz mapFlags).1,
   { fpr := (rc.QMapReg j.fpr mipsReg sz mapFlags).2,
     code := j.code ++ [Event.QMapReg mipsReg sz mapFlags] })

/-- The call `fpr.QAllocTemp()`. -/
def Jit.QAllocTemp (rc : RegCache σ) (j : Jit σ) : ARMReg × Jit σ :=
  ((rc.QAllocTemp j.fpr).1,
   { fpr := (rc.QAllocTemp j.fpr).2, code := j.code ++ [Event.QAllocTemp] })

/-- The call `fpr.ReleaseSpillLocksAndDiscardTemps()`. -/
def Jit.Release (rc : RegCache σ) (j : Jit σ) : Jit σ :=
  { fpr := rc.ReleaseSpillLocksAndDiscardTemps j.fpr,
    code := j.code ++ [Event.ReleaseSpillLocksAndDiscardTemps] }

/-- The macro `DISABLE`:
`{ fpr.ReleaseSpillLocksAndDiscardTemps(); Comp_Generic(op); return; }`. -/
def DISABLE (rc : RegCache σ) (j : Jit σ) (op : Nat) : Jit σ :=
  (j.Release rc).emit (Event.Comp_Generic op)

/-- The loop `for (int i = lo; i < lo + k; i++) body`. -/
def forRange {α : Type} (lo : Nat) : Nat → (Nat → α → α) → α → α
  | 0, _, s => s
  | k + 1, body, s => body (lo + k) (forRange lo k body s)

/-! ## Source prefixes -/

/-- The table `constantArray` as IEEE-754 binary32 words:
`0, 1, 2, 0.5, 3, 1/3, 0.25, 1/6`. -/
def constantArray : List Nat :=
  [0x00000000, 0x3F800000, 0x40000000, 0x3F000000,
   0x40400000, 0x3EAAAAAB, 0x3E800000, 0x3E2AAAAB]

/-- The table `constantArrayNegated` as IEEE-754 binary32 words. -/
def constantArrayNegated : List Nat :=
  [0x80000000, 0xBF800000, 0xC0000000, 0xBF000000,
   0xC0400000, 0xBEAAAAAB, 0xBE800000, 0xBE2AAAAB]

/-- Decoded `regnum[i]`. -/
def regnum (pfx i : Nat) : Nat := (pfx >>> (i * 2)) &&& 3

/-- Decoded `abs[i]`. -/
def absBit (pfx i : Nat) : Nat := (pfx >>> (8 + i)) &&& 1

/-- Decoded `negate[i]`. -/
def negateBit (pfx i : Nat) : Nat := (pfx >>> (16 + i)) &&& 1

/-- Decoded `constants[i]`. -/
def constantsBit (pfx i : Nat) : Nat := (pfx >>> (12 + i)) &&& 1

/-- The variable `permuteMask` after the decode loop. -/
def permuteMask (n : Nat) : Nat :=
  forRange 0 n (fun i m => m ||| (3 <<< (i * 2))) 0

/-- The variable `allSame` after its loop (which starts at lane 1). -/
def allSame (pfx n : Nat) : Bool :=
  forRange 1 (n - 1) (fun i b => if regnum pfx 0 = regnum pfx i then false else b) true

/-- The pointer handed to `MOVP2R` for lane `i`:
`(negate[i] ? constantArrayNegated : constantArray) + constNum`. -/
def constPtr (pfx i : Nat) : FloatPtr :=
  if negateBit pfx i ≠ 0 then
    FloatPtr.constantArrayNegated (regnum pfx i + (absBit pfx i <<< 2))
  else
    FloatPtr.constantArray (regnum pfx i + (absBit pfx i <<< 2))

/-- One lane of a constant load: `MOVP2R(R0, ...); VLD1_lane(F_32, ar, R0, i, true);`. -/
def loadConstLane (pfx : Nat) (ar : ARMReg) (i : Nat) (j : Jit σ) : Jit σ :=
  (j.emit (Event.MOVP2R R0 (constPtr pfx i))).emit (Event.VLD1_lane ar R0 i true)

/-- The function `Jit::NEONMapPrefixST`. -/
def NEONMapPrefixST (rc : RegCache σ) (j : Jit σ) (mipsReg : Nat) (sz : VectorSize)
    (pfx : Nat) (mapFlags : Nat) : ARMReg × Jit σ :=
  if pfx = 0xE4 then
    j.QMapReg rc mipsReg sz mapFlags
  else
    let n := GetNumVectorElements sz
    let abs_mask := (pfx >>> 8) &&& 0xF
    let negate_mask := (pfx >>> 16) &&& 0xF
    let constants_mask := (pfx >>> 12) &&& 0xF
    let full_mask := (1 <<< n) - 1
    let anyPermute : Bool := decide ((pfx &&& permuteMask n) = (0xE4 &&& permuteMask n))
    if constants_mask = full_mask then
      let a := j.QAllocTemp rc
      (a.1, forRange 0 n (fun i s => loadConstLane pfx a.1 i s) a.2)
    else
      let m := j.QMapReg rc mipsReg sz mapFlags
      let inputAR := m.1
      let a := m.2.QAllocTemp rc
      let ar := a.1
      let j1 :=
        if !anyPermute then
          a.2.emit (Event.VMOV ar inputAR)
        else if allSame pfx n then
          a.2.emit (Event.VDUP ar inputAR (regnum pfx 0))
        else
          a.2
      let j2 := if abs_mask = full_mask then j1.emit (Event.VABS_F32 ar ar) else j1
      let j3 := if negate_mask = full_mask then j2.emit (Event.VNEG_F32 ar ar) else j2
      (ar, forRange 0 n
        (fun i s => if constantsBit pfx i ≠ 0 then loadConstLane pfx ar i s else s) j3)

/-- Modelled from the spec: `NEONMapPrefixS` is declared outside this file; it
requests a source operand through the source pipeline with the S prefix. -/
def NEONMapPrefixS (rc : RegCache σ) (js : JitState) (j : Jit σ) (vfpuReg : Nat)
    (sz : VectorSize) (mapFlags : Nat) : ARMReg × Jit σ :=
  NEONMapPrefixST rc j vfpuReg sz js.prefixS mapFlags

/-- Modelled from the spec: `NEONMapPrefixT` is declared outside this file; it
requests a source operand through the source pipeline with the T prefix. -/
def NEONMapPrefixT (rc : RegCache σ) (js : JitState) (j : Jit σ) (vfpuReg : Nat)
    (sz : VectorSize) (mapFlags : Nat) : ARMReg × Jit σ :=
  NEONMapPrefixST rc j vfpuReg sz js.prefixT mapFlags

/-- The function `MatchSize`. -/
def MatchSize (x _target : ARMReg) : ARMReg := x

/-! ## Destination prefix -/

/-- Modelled from the spec: `DestARMReg` is declared outside this file; the
destination binding is the pair of working register `rd` and backing register
`backingRd`, with the shape.  Where the source passes a `DestARMReg` to the
emitter, the working register `rd` is meant. -/
structure DestARMReg where
  rd : ARMReg
  backingRd : ARMReg
  sz : VectorSize
  deriving DecidableEq, Repr

/-- The function `Jit::NEONMapPrefixD`. -/
def NEONMapPrefixD (rc : RegCache σ) (js : JitState) (j : Jit σ) (vreg : Nat)
    (sz : VectorSize) (mapFlags : Nat) : DestARMReg × Jit σ :=
  let writeMask := not32 (js.prefixD >>> 8) &&& 0xF
  if writeMask = 0xF then
    let m := j.QMapReg rc vreg sz mapFlags
    ({ rd := m.1, backingRd := m.1, sz := sz }, m.2)
  else
    let a := j.QAllocTemp rc
    let m := a.2.QMapReg rc vreg sz (mapFlags &&& not32 MAP_NOINIT)
    ({ rd := a.1, backingRd := m.1, sz := sz }, m.2)

/-- The three masks of `NEONApplyPrefixD`. -/
structure SatMasks where
  sat1_mask : Nat
  sat3_mask : Nat
  full_mask : Nat
  deriving DecidableEq, Repr

/-- The first loop of `NEONApplyPrefixD`. -/
def satMasks (prefixD n : Nat) : SatMasks :=
  forRange 0 n
    (fun i m =>
      let sat := (prefixD >>> (i * 2)) &&& 3
      { sat1_mask := if sat = 1 then m.sat1_mask ||| (i <<< 1) else m.sat1_mask,
        sat3_mask := if sat = 3 then m.sat3_mask ||| (i <<< 1) else m.sat3_mask,
        full_mask := m.full_mask ||| (i <<< 1) })
    { sat1_mask := 0, sat3_mask := 0, full_mask := 0 }

/-- The six emitter calls of a clamp of `rd` to `[lower, 1]`, in the order of the
source: the bound `one` is loaded to all lanes of `Q0`, `R0` is pointed at the
lower bound, then `VMIN`, the load of the lower bound, `VMAX`. -/
def emitClamp (j : Jit σ) (rd : ARMReg) (lower : FloatPtr) : Jit σ :=
  let temp := MatchSize Q0 rd
  ((((((j.emit (Event.MOVP2R R0 FloatPtr.one)).emit
    (Event.VLD1_all_lanes temp R0 true)).emit
    (Event.MOVP2R R0 lower)).emit
    (Event.VMIN rd rd temp)).emit
    (Event.VLD1_all_lanes temp R0 true)).emit
    (Event.VMAX rd rd temp))

/-- The function `Jit::NEONApplyPrefixD`. -/
def NEONApplyPrefixD (js : JitState) (j : Jit σ) (dest : DestARMReg) : Jit σ :=
  let n := GetNumVectorElements dest.sz
  let m := satMasks js.prefixD n
  let j1 :=
    if m.sat1_mask ≠ 0 ∧ m.sat3_mask ≠ 0 then j.emit (Event.ELOG LogMsg.both_sat) else j
  let j2 :=
    if m.sat1_mask ≠ 0 then
      let j1a :=
        if m.sat1_mask ≠ m.full_mask then j1.emit (Event.ELOG LogMsg.partial_sat1) else j1
      emitClamp j1a dest.rd FloatPtr.zero
    else j1
  let j3 :=
    if m.sat3_mask ≠ 0 ∧ m.sat1_mask ≠ m.full_mask then
      let j2a :=
        if m.sat1_mask ≠ m.full_mask then j2.emit (Event.ELOG LogMsg.partial_sat3) else j2
      emitClamp j2a dest.rd FloatPtr.minus_one
    else j2
  if dest.backingRd ≠ dest.rd then
    j3.emit (Event.VMOV dest.backingRd dest.rd)
  else j3

/-! ## Handlers -/

/-- What `CompNEON_VecDo3` does after its `switch`:
`NEONApplyPrefixD(vd); fpr.ReleaseSpillLocksAndDiscardTemps(); DISABLE;`. -/
def VecDo3_tail (rc : RegCache σ) (js : JitState) (j : Jit σ) (vd : DestARMReg)
    (op : Nat) : Jit σ :=
  DISABLE rc ((NEONApplyPrefixD js j vd).Release rc) op

/-- The `switch` of `CompNEON_VecDo3` and what follows it, on the mapped
operands.  A case that ends in `break` runs into the lines after the `switch`;
the `switch` on VFPU3 has no `default`, so its cases 0, 1, 4 and 5 do too. -/
def VecDo3_switch (rc : RegCache σ) (js : JitState) (j : Jit σ) (vs vt : ARMReg)
    (vd : DestARMReg) (op : Nat) : Jit σ :=
  if op >>> 26 = 24 then
    if (op >>> 23) &&& 7 = 0 then VecDo3_tail rc js (j.emit (Event.VADD vd.rd vs vt)) vd op
    else if (op >>> 23) &&& 7 = 1 then
      VecDo3_tail rc js (j.emit (Event.VSUB vd.rd vs vt)) vd op
    else if (op >>> 23) &&& 7 = 7 then DISABLE rc j op
    else DISABLE rc j op
  else if op >>> 26 = 25 then
    if (op >>> 23) &&& 7 = 0 then VecDo3_tail rc js (j.emit (Event.VMUL vd.rd vs vt)) vd op
    else DISABLE rc j op
  else if op >>> 26 = 27 then
    if (op >>> 23) &&& 7 = 2 then VecDo3_tail rc js (j.emit (Event.VMIN vd.rd vs vt)) vd op
    else if (op >>> 23) &&& 7 = 3 then
      VecDo3_tail rc js (j.emit (Event.VMAX vd.rd vs vt)) vd op
    else if (op >>> 23) &&& 7 = 6 then DISABLE rc j op
    else if (op >>> 23) &&& 7 = 7 then DISABLE rc j op
    else VecDo3_tail rc js j vd op
  else DISABLE rc j op

/-- The function `Jit::CompNEON_VecDo3`.  The initialiser of `vd` reads `vd`
itself before it is set; `vdUninit` is the register that read yields. -/
def CompNEON_VecDo3 (rc : RegCache σ) (f : OpFields) (js : JitState)
    (vdUninit : ARMReg) (j : Jit σ) (op : Nat) : Jit σ :=
  if js.HasUnknownPrefix then DISABLE rc j op
  else
    let sz := f.GetVecSize op
    let s := NEONMapPrefixS rc js j (f.VS op) sz 0
    let vs := s.1
    let t := NEONMapPrefixT rc js s.2 (f.VT op) sz 0
    let vt := t.1
    let d := NEONMapPrefixD rc js t.2 (f.VD op) sz
      (MAP_DIRTY ||| (if vdUninit = vs ∨ vdUninit = vt then 0 else MAP_NOINIT))
    VecDo3_switch rc js d.2 vs vt d.1 op

/-- The function `Jit::CompNEON_SV`. -/
def CompNEON_SV (rc : RegCache σ) (j : Jit σ) (op : Nat) : Jit σ := DISABLE rc j op

/-- The C cast `(signed short)x` of a value `x < 65536`. -/
def signedShort (x : Nat) : Int :=
  if x % 65536 < 32768 then ((x % 65536 : Nat) : Int) else ((x % 65536 : Nat) : Int) - 65536

/-- The address computation shared by both cases of `CompNEON_SVQ`; the second
component is `doCheck`. -/
def SVQ_address (g : GprEnv) (j : Jit σ) (rs : Nat) (imm : Int) : Jit σ × Bool :=
  if g.IsImm rs then
    let addr := ((imm + (g.GetImm rs : Int)) % 2 ^ 32).toNat &&& 0x3FFFFFFF
    (j.emit (Event.gprSetRegImm R0 ((addr + g.memoryBase) % 2 ^ 32)), false)
  else
    let j1 := j.emit (Event.gprMapReg rs)
    if g.bFastMemory then
      ((j1.emit (Event.SetR0ToEffectiveAddress rs imm)).emit (Event.ADD R0 R0 MEMBASEREG), false)
    else
      ((j1.emit (Event.SetCCAndR0ForSafeAddress rs imm R1)).emit (Event.ADD R0 R0 MEMBASEREG),
        true)

/-- The function `Jit::CompNEON_SVQ`. -/
def CompNEON_SVQ (rc : RegCache σ) (f : OpFields) (g : GprEnv) (j : Jit σ) (op : Nat) :
    Jit σ :=
  let imm := signedShort (op &&& 0xFFFC)
  let vt := ((op >>> 16) &&& 0x1f) ||| ((op &&& 1) <<< 5)
  let rs := f.RS op
  if op >>> 26 = 54 then
    let m := j.QMapReg rc vt V_Quad (MAP_DIRTY ||| MAP_NOINIT)
    let a := SVQ_address g m.2 rs imm
    let j1 := if a.2 then a.1.emit Event.B_CC_EQ else a.1
    let j2 := j1.emit (Event.VLD1 m.1 R0 2)
    let j3 := if a.2 then (j2.emit Event.SetJumpTarget).emit Event.SetCC_AL else j2
    j3.Release rc
  else if op >>> 26 = 62 then
    let m := j.QMapReg rc vt V_Quad 0
    let a := SVQ_address g m.2 rs imm
    let j1 := if a.2 then a.1.emit Event.B_CC_EQ else a.1
    let j2 := j1.emit (Event.VST1 m.1 R0 2)
    let j3 := if a.2 then (j2.emit Event.SetJumpTarget).emit Event.SetCC_AL else j2
    j3.Release rc
  else DISABLE rc j op

/-- The function `Jit::CompNEON_VVectorInit`. -/
def CompNEON_VVectorInit (rc : RegCache σ) (j : Jit σ) (op : Nat) : Jit σ := DISABLE rc j op

/-- The function `Jit::CompNEON_VMatrixInit`. -/
def CompNEON_VMatrixInit (rc : RegCache σ) (j : Jit σ) (op : Nat) : Jit σ := DISABLE rc j op

/-- The function `Jit::CompNEON_VDot`. -/
def CompNEON_VDot (rc : RegCache σ) (j : Jit σ) (op : Nat) : Jit σ := DISABLE rc j op

/-- What `CompNEON_VV2Op` does after its `switch`:
`NEONApplyPrefixD(vd); fpr.ReleaseSpillLocksAndDiscardTemps();`. -/
def VV2Op_tail (rc : RegCache σ) (js : JitState) (j : Jit σ) (vd : DestARMReg) : Jit σ :=
  (NEONApplyPrefixD js j vd).Release rc

/-- The `switch` of `CompNEON_VV2Op` and what follows it, on the mapped
operands.  The last branch stands for the cases 4, 5, 17 to 21, 23, 24, 26, 28
and `default`, each of which is `DISABLE`. -/
def VV2Op_switch (rc : RegCache σ) (js : JitState) (j : Jit σ) (vs : ARMReg)
    (vd : DestARMReg) (op : Nat) : Jit σ :=
  if (op >>> 16) &&& 0x1f = 0 then VV2Op_tail rc js (j.emit (Event.VMOV vd.rd vs)) vd
  else if (op >>> 16) &&& 0x1f = 1 then
    VV2Op_tail rc js (j.emit (Event.VABS_F32 vd.rd vs)) vd
  else if (op >>> 16) &&& 0x1f = 2 then
    VV2Op_tail rc js (j.emit (Event.VNEG_F32 vd.rd vs)) vd
  else if (op >>> 16) &&& 0x1f = 16 then
    VV2Op_tail rc js
      (((j.emit (Event.MOVP2R R0 FloatPtr.one)).emit
        (Event.VLD1_all_lanes (MatchSize Q0 vs) R0 true)).emit
        (Event.VDIV vd.rd Q0 vs)) vd
  else if (op >>> 16) &&& 0x1f = 22 then
    VV2Op_tail rc js ((j.emit (Event.VSQRT vd.rd vs)).emit (Event.VABS vd.rd vd.rd)) vd
  else DISABLE rc j op

/-- The function `Jit::CompNEON_VV2Op`.  The initialiser of `vd` reads `vd`
itself before it is set; `vdUninit` is the register that read yields. -/
def CompNEON_VV2Op (rc : RegCache σ) (f : OpFields) (js : JitState)
    (vdUninit : ARMReg) (j : Jit σ) (op : Nat) : Jit σ :=
  if js.HasUnknownPrefix then DISABLE rc j op
  else if (op >>> 16) &&& 0x1f = 0 ∧ f.VS op = f.VD op ∧ js.HasNoPrefix then j
  else
    let sz := f.GetVecSize op
    let s := NEONMapPrefixS rc js j (f.VS op) sz 0
    let vs := s.1
    let d := NEONMapPrefixD rc js s.2 (f.VD op) sz
      (MAP_DIRTY ||| (if vdUninit = vs then 0 else MAP_NOINIT))
    VV2Op_switch rc js d.2 vs d.1 op

/-- The function `Jit::CompNEON_Mftv`. -/
def CompNEON_Mftv (rc : RegCache σ) (j : Jit σ) (op : Nat) : Jit σ := DISABLE rc j op

/-- The function `Jit::CompNEON_Vmtvc`. -/
def CompNEON_Vmtvc (rc : RegCache σ) (j : Jit σ) (op : Nat) : Jit σ := DISABLE rc j op

/-- The function `Jit::CompNEON_Vmmov`. -/
def CompNEON_Vmmov (rc : RegCache σ) (j : Jit σ) (op : Nat) : Jit σ := DISABLE rc j op

/-- The function `Jit::CompNEON_VScl`. -/
def CompNEON_VScl (rc : RegCache σ) (j : Jit σ) (op : Nat) : Jit σ := DISABLE rc j op

/-- The function `Jit::CompNEON_Vmmul`. -/
def CompNEON_Vmmul (rc : RegCache σ) (j : Jit σ) (op : Nat) : Jit σ := DISABLE rc j op

/-- The function `Jit::CompNEON_Vmscl`. -/
def CompNEON_Vmscl (rc : RegCache σ) (j : Jit σ) (op : Nat) : Jit σ := DISABLE rc j op

/-- The function `Jit::CompNEON_Vtfm`. -/
def CompNEON_Vtfm (rc : RegCache σ) (j : Jit σ) (op : Nat) : Jit σ := DISABLE rc j op

/-- The function `Jit::CompNEON_VHdp`. -/
def CompNEON_VHdp (rc : RegCache σ) (j : Jit σ) (op : Nat) : Jit σ := DISABLE rc j op

/-- The function `Jit::CompNEON_VCrs`. -/
def CompNEON_VCrs (rc : RegCache σ) (j : Jit σ) (op : Nat) : Jit σ := DISABLE rc j op

/-- The function `Jit::CompNEON_VDet`. -/
def CompNEON_VDet (rc : RegCache σ) (j : Jit σ) (op : Nat) : Jit σ := DISABLE rc j op

/-- The function `Jit::CompNEON_Vi2x`. -/
def CompNEON_Vi2x (rc : RegCache σ) (j : Jit σ) (op : Nat) : Jit σ := DISABLE rc j op

/-- The function `Jit::CompNEON_Vx2i`. -/
def CompNEON_Vx2i (rc : RegCache σ) (j : Jit σ) (op : Nat) : Jit σ := DISABLE rc j op

/-- The function `Jit::CompNEON_Vf2i`. -/
def CompNEON_Vf2i (rc : RegCache σ) (j : Jit σ) (op : Nat) : Jit σ := DISABLE rc j op

/-- The function `Jit::CompNEON_Vi2f`. -/
def CompNEON_Vi2f (rc : RegCache σ) (j : Jit σ) (op : Nat) : Jit σ := DISABLE rc j op

/-- The function `Jit::CompNEON_Vh2f`. -/
def CompNEON_Vh2f (rc : RegCache σ) (j : Jit σ) (op : Nat) : Jit σ := DISABLE rc j op

/-- The function `Jit::CompNEON_Vcst`. -/
def CompNEON_Vcst (rc : RegCache σ) (j : Jit σ) (op : Nat) : Jit σ := DISABLE rc j op

/-- The function `Jit::CompNEON_Vhoriz`. -/
def CompNEON_Vhoriz (rc : RegCache σ) (j : Jit σ) (op : Nat) : Jit σ := DISABLE rc j op

/-- The function `Jit::CompNEON_VRot`. -/
def CompNEON_VRot (rc : RegCache σ) (j : Jit σ) (op : Nat) : Jit σ := DISABLE rc j op

/-- The function `Jit::CompNEON_VIdt`. -/
def CompNEON_VIdt (rc : RegCache σ) (j : Jit σ) (op : Nat) : Jit σ := DISABLE rc j op

/-- The function `Jit::CompNEON_Vcmp`. -/
def CompNEON_Vcmp (rc : RegCache σ) (j : Jit σ) (op : Nat) : Jit σ := DISABLE rc j op

/-- The function `Jit::CompNEON_Vcmov`. -/
def CompNEON_Vcmov (rc : RegCache σ) (j : Jit σ) (op : Nat) : Jit σ := DISABLE rc j op

/-- The function `Jit::CompNEON_Viim`. -/
def CompNEON_Viim (rc : RegCache σ) (j : Jit σ) (op : Nat) : Jit σ := DISABLE rc j op

/-- The function `Jit::CompNEON_Vfim`. -/
def CompNEON_Vfim (rc : RegCache σ) (j : Jit σ) (op : Nat) : Jit σ := DISABLE rc j op

/-- The function `Jit::CompNEON_VCrossQuat`. -/
def CompNEON_VCrossQuat (rc : RegCache σ) (j : Jit σ) (op : Nat) : Jit σ := DISABLE rc j op

/-- The function `Jit::CompNEON_Vsgn`. -/
def CompNEON_Vsgn (rc : RegCache σ) (j : Jit σ) (op : Nat) : Jit σ := DISABLE rc j op

/-- The function `Jit::CompNEON_Vocp`. -/
def CompNEON_Vocp (rc : RegCache σ) (j : Jit σ) (op : Nat) : Jit σ := DISABLE rc j op

/-- The `CompNEON_*` handlers of the file, in the order of the source. -/
inductive Handler where
  | VecDo3 | SV | SVQ | VVectorInit | VMatrixInit | VDot | VV2Op | Mftv | Vmtvc
  | Vmmov | VScl | Vmmul | Vmscl | Vtfm | VHdp | VCrs | VDet | Vi2x | Vx2i | Vf2i
  | Vi2f | Vh2f | Vcst | Vhoriz | VRot | VIdt | Vcmp | Vcmov | Viim | Vfim
  | VCrossQuat | Vsgn | Vocp
  deriving DecidableEq, Repr

/-- Everything a handler reads besides the opcode and the register cache. -/
structure Env where
  f : OpFields
  js : JitState
  g : GprEnv
  vdUninit : ARMReg

/-- Run the handler `h` on the opcode `op`. -/
def CompNEON (rc : RegCache σ) (e : Env) (h : Handler) (j : Jit σ) (op : Nat) : Jit σ :=
  match h with
  | Handler.VecDo3 => CompNEON_VecDo3 rc e.f e.js e.vdUninit j op
  | Handler.SV => CompNEON_SV rc j op
  | Handler.SVQ => CompNEON_SVQ rc e.f e.g j op
  | Handler.VVectorInit => CompNEON_VVectorInit rc j op
  | Handler.VMatrixInit => CompNEON_VMatrixInit rc j op
  | Handler.VDot => CompNEON_VDot rc j op
  | Handler.VV2Op => CompNEON_VV2Op rc e.f e.js e.vdUninit j op
  | Handler.Mftv => CompNEON_Mftv rc j op
  | Handler.Vmtvc => CompNEON_Vmtvc rc j op
  | Handler.Vmmov => CompNEON_Vmmov rc j op
  | Handler.VScl => CompNEON_VScl rc j op
  | Handler.Vmmul => CompNEON_Vmmul rc j op
  | Handler.Vmscl => CompNEON_Vmscl rc j op
  | Handler.Vtfm => CompNEON_Vtfm rc j op
  | Handler.VHdp => CompNEON_VHdp rc j op
  | Handler.VCrs => CompNEON_VCrs rc j op
  | Handler.VDet => CompNEON_VDet rc j op
  | Handler.Vi2x => CompNEON_Vi2x rc j op
  | Handler.Vx2i => CompNEON_Vx2i rc j op
  | Handler.Vf2i => CompNEON_Vf2i rc j op
  | Handler.Vi2f => CompNEON_Vi2f rc j op
  | Handler.Vh2f => CompNEON_Vh2f rc j op
  | Handler.Vcst => CompNEON_Vcst rc j op
  | Handler.Vhoriz => CompNEON_Vhoriz rc j op
  | Handler.VRot => CompNEON_VRot rc j op
  | Handler.VIdt => CompNEON_VIdt rc j op
  | Handler.Vcmp => CompNEON_Vcmp rc j op
  | Handler.Vcmov => CompNEON_Vcmov rc j op
  | Handler.Viim => CompNEON_Viim rc j op
  | Handler.Vfim => CompNEON_Vfim rc j op
  | Handler.VCrossQuat => CompNEON_VCrossQuat rc j op
  | Handler.Vsgn => CompNEON_Vsgn rc j op
  | Handler.Vocp => CompNEON_Vocp rc j op

/-! ## Meaning of the emitted vector instructions -/

/-- The `float` an address of `FloatPtr` points to, as an IEEE-754 binary32
word. -/
def FloatPtr.load : FloatPtr → Nat
  | FloatPtr.minus_one => 0xBF800000
  | FloatPtr.one => 0x3F800000
  | FloatPtr.zero => 0x00000000
  | FloatPtr.constantArray k => List.getD MIPSComp.constantArray k 0
  | FloatPtr.constantArrayNegated k => List.getD MIPSComp.constantArrayNegated k 0

/-- Sign change of a binary32 word. -/
def fneg (x : Nat) : Nat := x ^^^ 0x80000000

/-- Absolute value of a binary32 word. -/
def fabs (x : Nat) : Nat := x &&& 0x7FFFFFFF

/-- The rounding arithmetic of the host on binary32 words.  It is left
abstract: the embedding fixes no floating-point arithmetic. -/
structure FloatOps where
  add : Nat → Nat → Nat
  sub : Nat → Nat → Nat
  mul : Nat → Nat → Nat
  div : Nat → Nat → Nat
  min : Nat → Nat → Nat
  max : Nat → Nat → Nat
  sqrt : Nat → Nat

/-- The host state the emitted vector code works on: the constant address
held by each core register and the four 32-bit lanes of each vector
register. -/
structure Host where
  r : ARMReg → FloatPtr
  q : ARMReg → Nat → Nat

/-- Replace all lanes of the vector register `vd`. -/
def Host.setQ (h : Host) (vd : ARMReg) (v : Nat → Nat) : Host :=
  { h with q := fun x => if x = vd then v else h.q x }

/-- Modelled from the spec: the host instructions behind the emitter calls are
outside this file.  A vector instruction works on all four lanes of its
`Q` registers; a register cache call or a diagnostic is no host instruction
and leaves the host state as it is (the mapped register is taken to hold the
guest value already).  Memory accesses at guest addresses, core register
arithmetic, branches and the generic fallback have no meaning in this model
(`none`).  Neither has `VDIV`: it is the scalar divide, and the source itself
notes, where it disables `vdiv`, that there is no NEON SIMD `VDIV`, so the call
on `Q` registers is no vector instruction. -/
def step (fo : FloatOps) (h : Host) : Event → Option Host
  | Event.MOVP2R rd p => some { h with r := fun x => if x = rd then p else h.r x }
  | Event.VLD1_lane vd rn lane _ =>
      some (h.setQ vd (fun l => if l = lane then (h.r rn).load else h.q vd l))
  | Event.VLD1_all_lanes vd rn _ => some (h.setQ vd (fun _ => (h.r rn).load))
  | Event.VMOV vd vm => some (h.setQ vd (h.q vm))
  | Event.VDUP vd vm lane => some (h.setQ vd (fun _ => h.q vm lane))
  | Event.VABS_F32 vd vm => some (h.setQ vd (fun l => fabs (h.q vm l)))
  | Event.VNEG_F32 vd vm => some (h.setQ vd (fun l => fneg (h.q vm l)))
  | Event.VMIN vd vn vm => some (h.setQ vd (fun l => fo.min (h.q vn l) (h.q vm l)))
  | Event.VMAX vd vn vm => some (h.setQ vd (fun l => fo.max (h.q vn l) (h.q vm l)))
  | Event.VADD vd vn vm => some (h.setQ vd (fun l => fo.add (h.q vn l) (h.q vm l)))
  | Event.VSUB vd vn vm => some (h.setQ vd (fun l => fo.sub (h.q vn l) (h.q vm l)))
  | Event.VMUL vd vn vm => some (h.setQ vd (fun l => fo.mul (h.q vn l) (h.q vm l)))
  | Event.VSQRT vd vm => some (h.setQ vd (fun l => fo.sqrt (h.q vm l)))
  | Event.VABS vd vm => some (h.setQ vd (fun l => fabs (h.q vm l)))
  | Event.QMapReg _ _ _ => some h
  | Event.QAllocTemp => some h
  | Event.ReleaseSpillLocksAndDiscardTemps => some h
  | Event.ELOG _ => some h
  | _ => none

/-- Run a list of calls on the host, oldest first. -/
def run (fo : FloatOps) : Host → List Event → Option Host
  | h, [] => some h
  | h, e :: es => (step fo h e).bind (fun h1 => run fo h1 es)

/-! ## Concrete collaborators, for evaluating the handlers -/

/-- An example register cache (the real one is outside this file): it keeps
guest register `v` resident in `Q(4 + v % 8)` and hands out `Q12`, `Q13`, ...
as temporaries until the next release; its state is the number of temporaries
handed out. -/
def exampleCache : RegCache Nat where
  QMapReg := fun s mipsReg _ _ => (ARMReg.Q (4 + mipsReg % 8), s)
  QAllocTemp := fun s => (ARMReg.Q (12 + s), s + 1)
  ReleaseSpillLocksAndDiscardTemps := fun _ => 0

/-- Example opcode field helpers (the real ones are outside this file), with
the usual VFPU fields: `vd` in bits 0..6, `vs` in bits 8..14, `vt` in bits
16..22, `rs` in bits 21..25, and the shape in bits 7 and 15. -/
def exampleFields : OpFields where
  VS := fun op => (op >>> 8) &&& 0x7F
  VT := fun op => (op >>> 16) &&& 0x7F
  VD := fun op => op &&& 0x7F
  RS := fun op => (op >>> 21) &&& 0x1F
  GetVecSize := fun op =>
    if ((op >>> 7) &&& 1) + (((op >>> 15) &&& 1) <<< 1) = 0 then V_Single
    else if ((op >>> 7) &&& 1) + (((op >>> 15) &&& 1) <<< 1) = 1 then V_Pair
    else if ((op >>> 7) &&& 1) + (((op >>> 15) &&& 1) <<< 1) = 2 then V_Triple
    else V_Quad

/-- A prefix state with known prefixes `s`, `t`, `d`; it reports no prefix
when these are the identity `0xE4`, `0xE4` and the empty `0`. -/
def knownPrefixes (s t d : Nat) : JitState where
  prefixS := s
  prefixT := t
  prefixD := d
  HasUnknownPrefix := false
  HasNoPrefix := decide (s = 0xE4 ∧ t = 0xE4 ∧ d = 0)

/-- An empty compiler state over the example cache. -/
def emptyJit : Jit Nat := { fpr := 0, code := [] }

/-- Host arithmetic that is never looked at: every operation returns zero. -/
def nullOps : FloatOps where
  add := fun _ _ => 0
  sub := fun _ _ => 0
  mul := fun _ _ => 0
  div := fun _ _ => 0
  min := fun _ _ => 0
  max := fun _ _ => 0
  sqrt := fun _ => 0

/-- A host state in which lane `l` of `Q k` holds the word `100 * k + l` and
every core register points at `zero`. -/
def exampleHost : Host where
  r := fun _ => FloatPtr.zero
  q := fun x l => match x with
    | ARMReg.Q k => 100 * k + l
    | ARMReg.R _ => 0

/-- A host state in which every lane of every vector register holds `-1.0`
(the word `0xBF800000`) and every core register points at `zero`. -/
def minusOneHost : Host where
  r := fun _ => FloatPtr.zero
  q := fun _ _ => 0xBF800000

/-- An example of the collaborators of `CompNEON_SVQ`: every core register
holds the known immediate `0x08801000`, fast memory is on and the host memory
base is `0x10000000`. -/
def exampleGpr : GprEnv where
  IsImm := fun _ => true
  GetImm := fun _ => 0x08801000
  bFastMemory := true
  memoryBase := 0x10000000

/-! ## The release discipline -/

/-- A register mapping or a temporary allocation. -/
def Event.isMapping : Event → Bool
  | Event.QMapReg _ _ _ => true
  | Event.QAllocTemp => true
  | Event.gprMapReg _ => true
  | _ => false

/-- The hand-over to the generic interpreter. -/
def Event.isGeneric : Event → Bool
  | Event.Comp_Generic _ => true
  | _ => false

/-- The release discipline of a handler, on the calls it made: each mapping or
allocation is followed by a release, with no hand-over to the generic
interpreter in between. -/
def ReleasedBeforeExit (evs : List Event) : Prop :=
  ∀ pre e post, evs = pre ++ e :: post → e.isMapping = true →
    ∃ mid rest, post = mid ++ Event.ReleaseSpillLocksAndDiscardTemps :: rest ∧
      ∀ x ∈ mid, x.isGeneric = false

/-- One step of the bookkeeping behind `ReleasedBeforeExit`: `some b` says the
discipline was kept so far and `b` whether a mapping awaits its release. -/
def releaseStep : Option Bool → Event → Option Bool
  | none, _ => none
  | some o, e =>
    if e.isMapping then some true
    else if e = Event.ReleaseSpillLocksAndDiscardTemps then some false
    else if e.isGeneric then (if o then none else some false)
    else some o

/-- The bookkeeping over a list of calls. -/
def releaseScan (o : Option Bool) (evs : List Event) : Option Bool :=
  evs.foldl releaseStep o

/-- The bookkeeping state of a compiler state whose calls all belong to the
handler. -/
def Jit.rel (j : Jit σ) : Option Bool := releaseScan (some false) j.code

/-! ## Running emitted code -/

theorem run_append (fo : FloatOps) (h : Host) (l1 l2 : List Event) :
    run fo h (l1 ++ l2) = (run fo h l1).bind (fun h1 => run fo h1 l2) := by
  induction l1 generalizing h with
  | nil => simp [run]
  | cons e es ih =>
    simp only [List.cons_append, run]
    cases step fo h e with
    | none => simp
    | some h1 => simp [ih]

/-- Running the calls of a state after one more call. -/
theorem run_emit (fo : FloatOps) (h : Host) (j : Jit σ) (e : Event) :
    run fo h (j.emit e).code = (run fo h j.code).bind (fun h1 => step fo h1 e) := by
  simp only [Jit.emit, run_append]
  cases run fo h j.code with
  | none => simp
  | some h1 =>
    simp only [Option.some_bind, run]
    cases step fo h1 e <;> simp

/-- The negated table holds the sign-changed entries of the table. -/
theorem constantArrayNegated_eq (k : Nat) (hk : k < 8) :
    constantArrayNegated.getD k 0 = fneg (constantArray.getD k 0) := by
  interval_cases k <;> decide

/-- A lane selector is below 4. -/
theorem regnum_lt (pfx i : Nat) : regnum pfx i < 4 := by
  unfold regnum
  have h := @Nat.and_le_right (pfx >>> (i * 2)) 3
  omega

/-- An absolute-value flag is 0 or 1. -/
theorem absBit_le (pfx i : Nat) : absBit pfx i ≤ 1 := by
  unfold absBit
  exact Nat.and_le_right

/-- The word behind the pointer for lane `i`: the table entry, with its sign
changed when the negate flag of the lane is set. -/
theorem constPtr_load (pfx i : Nat) :
    (constPtr pfx i).load =
      if negateBit pfx i = 1 then fneg (constantArray.getD (regnum pfx i + 4 * absBit pfx i) 0)
      else constantArray.getD (regnum pfx i + 4 * absBit pfx i) 0 := by
  have h1 := regnum_lt pfx i
  have h2 := absBit_le pfx i
  have h3 : negateBit pfx i ≤ 1 := by unfold negateBit; exact Nat.and_le_right
  have h4 : absBit pfx i <<< 2 = 4 * absBit pfx i := by
    rw [Nat.shiftLeft_eq]; omega
  unfold constPtr
  rw [h4]
  by_cases hn : negateBit pfx i = 1
  · have : negateBit pfx i ≠ 0 := by omega
    simp only [this, hn, ne_eq, not_false_eq_true, if_true, FloatPtr.load]
    exact constantArrayNegated_eq _ (by omega)
  · have : negateBit pfx i = 0 := by omega
    simp [this, FloatPtr.load]

/-- A constant load of lane `i` runs and writes lane `i` of `ar` only. -/
theorem run_loadConstLane (fo : FloatOps) (h h0 : Host) (pfx : Nat) (ar : ARMReg) (i : Nat)
    (s : Jit σ) (hs : run fo h s.code = some h0) :
    ∃ h1, run fo h (loadConstLane pfx ar i s).code = some h1 ∧
      ∀ l, h1.q ar l = if l = i then (constPtr pfx i).load else h0.q ar l := by
  simp [loadConstLane, run_emit, hs, step, Host.setQ]

/-- The constant loop runs, and leaves every flagged lane below `n` holding
its constant. -/
theorem run_constLoop (fo : FloatOps) (h : Host) (pfx : Nat) (ar : ARMReg)
    (c : Nat → Prop) [DecidablePred c] (n : Nat) (s : Jit σ)
    (hs : ∃ h0, run fo h s.code = some h0) :
    ∃ h1, run fo h
        (forRange 0 n (fun i s => if c i then loadConstLane pfx ar i s else s) s).code = some h1 ∧
      ∀ i, i < n → c i → h1.q ar i = (constPtr pfx i).load := by
  induction n with
  | zero =>
    obtain ⟨h0, hs⟩ := hs
    exact ⟨h0, by simpa [forRange] using hs, by intro i hi; omega⟩
  | succ n ih =>
    obtain ⟨h1, hrun, hlanes⟩ := ih
    simp only [forRange, Nat.zero_add]
    by_cases hc : c n
    · simp only [hc, if_true]
      obtain ⟨h2, hrun2, hl2⟩ := run_loadConstLane fo h h1 pfx ar n _ hrun
      refine ⟨h2, hrun2, ?_⟩
      intro i hi hci
      rw [hl2]
      by_cases hin : i = n
      · simp [hin]
      · simp only [hin, if_false]
        exact hlanes i (by omega) hci
    · simp only [hc, if_false]
      refine ⟨h1, hrun, ?_⟩
      intro i hi hci
      have : i ≠ n := by rintro rfl; exact hc hci
      exact hlanes i (by omega) hci


/-- Claim C3: for every shape, every source prefix other than `0xE4` and every
lane `i` below the lane count whose constant bit `12 + i` is set, the code
emitted by `NEONMapPrefixST` runs on any host state, and afterwards lane `i` of
the returned register holds entry `selector_i + 4 * abs_i` of `constantArray`,
with its sign changed exactly when negate bit `16 + i` is set; neither the
prior register contents nor the flags of the other lanes matter. -/
theorem NEONMapPrefixST_constant_lane (rc : RegCache σ) (fo : FloatOps) (s : σ) (h : Host)
    (mipsReg : Nat) (sz : VectorSize) (pfx mapFlags i : Nat)
    (hpfx : pfx ≠ 0xE4) (hi : i < GetNumVectorElements sz)
    (hconst : (pfx >>> (12 + i)) &&& 1 = 1) :
    ∃ h1,
      run fo h (NEONMapPrefixST rc { fpr := s, code := [] } mipsReg sz pfx mapFlags).2.code
        = some h1 ∧
      h1.q (NEONMapPrefixST rc { fpr := s, code := [] } mipsReg sz pfx mapFlags).1 i =
        if (pfx >>> (16 + i)) &&& 1 = 1 then
          fneg (constantArray.getD (((pfx >>> (i * 2)) &&& 3) + 4 * ((pfx >>> (8 + i)) &&& 1)) 0)
        else
          constantArray.getD (((pfx >>> (i * 2)) &&& 3) + 4 * ((pfx >>> (8 + i)) &&& 1)) 0 := by
  have hload := constPtr_load pfx i
  simp only [regnum, absBit, negateBit] at hload
  have hc : constantsBit pfx i ≠ 0 := by simp [constantsBit, hconst]
  simp only [NEONMapPrefixST, hpfx, if_false]
  split
  · -- all lanes are constants
    obtain ⟨h1, hrun, hl⟩ := run_constLoop fo h pfx (rc.QAllocTemp s).1 (fun _ => True)
      (GetNumVectorElements sz) (Jit.QAllocTemp rc { fpr := s, code := [] }).2
      (by simp [Jit.QAllocTemp, run, step])
    simp only [if_true] at hrun
    refine ⟨h1, hrun, ?_⟩
    rw [← hload]
    exact hl i hi trivial
  · -- the general path
    refine (run_constLoop fo h pfx _ (fun i => constantsBit pfx i ≠ 0) _ _ ?_).imp
      (fun h1 hh => ⟨hh.1, ?_⟩)
    · split_ifs <;> simp [run_emit, Jit.QMapReg, Jit.QAllocTemp, run, step]
    · rw [← hload]
      exact hh.2 i hi hc

/-- Claim C3 at a pair with prefix `0x1F0E4`, lane 1, on the example cache. -/
theorem NEONMapPrefixST_constant_lane_witness :
    (0x1F0E4 ≠ 0xE4 ∧ 1 < GetNumVectorElements V_Pair ∧ (0x1F0E4 >>> (12 + 1)) &&& 1 = 1) ∧
    ∃ h1,
      run nullOps exampleHost
        (NEONMapPrefixST exampleCache { fpr := 0, code := [] } 3 V_Pair 0x1F0E4 0).2.code
        = some h1 ∧
      h1.q (NEONMapPrefixST exampleCache { fpr := 0, code := [] } 3 V_Pair 0x1F0E4 0).1 1 =
        if (0x1F0E4 >>> (16 + 1)) &&& 1 = 1 then
          fneg (constantArray.getD (((0x1F0E4 >>> (1 * 2)) &&& 3) + 4 * ((0x1F0E4 >>> (8 + 1)) &&& 1)) 0)
        else
          constantArray.getD (((0x1F0E4 >>> (1 * 2)) &&& 3) + 4 * ((0x1F0E4 >>> (8 + 1)) &&& 1)) 0 :=
  ⟨by decide, NEONMapPrefixST_constant_lane exampleCache nullOps 0 exampleHost 3 V_Pair 0x1F0E4 0 1
    (by decide) (by decide) (by decide)⟩

/-! ## Elided moves and unknown prefixes -/

/-- Claim C2: a `vmov` (sub-opcode field 0) whose source and destination guest
registers are the same, with a known prefix state that reports no prefix, makes
`CompNEON_VV2Op` return at once: the compiler state is unchanged, so no host
instruction was emitted, no register cache call was made and the generic
fallback was not invoked. -/
theorem CompNEON_VV2Op_noop_vmov_elided (rc : RegCache σ) (f : OpFields) (js : JitState)
    (vdUninit : ARMReg) (j : Jit σ) (op : Nat)
    (hsub : (op >>> 16) &&& 0x1f = 0) (hreg : f.VS op = f.VD op)
    (hknown : js.HasUnknownPrefix = false) (hnone : js.HasNoPrefix = true) :
    CompNEON_VV2Op rc f js vdUninit j op = j := by
  simp [CompNEON_VV2Op, hsub, hreg, hknown, hnone]

/-- Claim C2 at the scalar `vmov` of guest register 1 onto itself. -/
theorem CompNEON_VV2Op_noop_vmov_elided_witness :
    ((0xD0000101 >>> 16) &&& 0x1f = 0 ∧ exampleFields.VS 0xD0000101 = exampleFields.VD 0xD0000101
      ∧ (knownPrefixes 0xE4 0xE4 0).HasUnknownPrefix = false
      ∧ (knownPrefixes 0xE4 0xE4 0).HasNoPrefix = true)
    ∧ CompNEON_VV2Op exampleCache exampleFields (knownPrefixes 0xE4 0xE4 0) (ARMReg.Q 0)
        emptyJit 0xD0000101 = emptyJit :=
  ⟨by decide, CompNEON_VV2Op_noop_vmov_elided exampleCache exampleFields
    (knownPrefixes 0xE4 0xE4 0) (ARMReg.Q 0) emptyJit 0xD0000101
    (by decide) (by decide) (by decide) (by decide)⟩

/-- Claim C5: when the prefix state reports an unknown prefix, `CompNEON_VecDo3`
and `CompNEON_VV2Op` make exactly two calls, the release of spill locks and
temporaries and then one call of the generic fallback: no host instruction, no
mapping, no temporary. -/
theorem unknown_prefix_falls_back (rc : RegCache σ) (f : OpFields) (js : JitState)
    (vdUninit : ARMReg) (j : Jit σ) (op : Nat) (hunk : js.HasUnknownPrefix = true) :
    CompNEON_VecDo3 rc f js vdUninit j op =
        { fpr := rc.ReleaseSpillLocksAndDiscardTemps j.fpr,
          code := j.code ++ [Event.ReleaseSpillLocksAndDiscardTemps, Event.Comp_Generic op] }
    ∧ CompNEON_VV2Op rc f js vdUninit j op =
        { fpr := rc.ReleaseSpillLocksAndDiscardTemps j.fpr,
          code := j.code ++ [Event.ReleaseSpillLocksAndDiscardTemps, Event.Comp_Generic op] } := by
  simp [CompNEON_VecDo3, CompNEON_VV2Op, hunk, DISABLE, Jit.Release, Jit.emit]

/-- Claim C5 at the opcode `0x60008080` with the prefix state marked unknown. -/
theorem unknown_prefix_falls_back_witness :
    ({ prefixS := 0xE4, prefixT := 0xE4, prefixD := 0, HasUnknownPrefix := true,
       HasNoPrefix := false } : JitState).HasUnknownPrefix = true
    ∧ (CompNEON_VecDo3 exampleCache exampleFields
        { prefixS := 0xE4, prefixT := 0xE4, prefixD := 0, HasUnknownPrefix := true,
          HasNoPrefix := false } (ARMReg.Q 0) emptyJit 0x60008080 =
        { fpr := exampleCache.ReleaseSpillLocksAndDiscardTemps emptyJit.fpr,
          code := emptyJit.code ++
            [Event.ReleaseSpillLocksAndDiscardTemps, Event.Comp_Generic 0x60008080] }
      ∧ CompNEON_VV2Op exampleCache exampleFields
        { prefixS := 0xE4, prefixT := 0xE4, prefixD := 0, HasUnknownPrefix := true,
          HasNoPrefix := false } (ARMReg.Q 0) emptyJit 0x60008080 =
        { fpr := exampleCache.ReleaseSpillLocksAndDiscardTemps emptyJit.fpr,
          code := emptyJit.code ++
            [Event.ReleaseSpillLocksAndDiscardTemps, Event.Comp_Generic 0x60008080] }) :=
  ⟨rfl, unknown_prefix_falls_back exampleCache exampleFields
    { prefixS := 0xE4, prefixT := 0xE4, prefixD := 0, HasUnknownPrefix := true,
      HasNoPrefix := false } (ARMReg.Q 0) emptyJit 0x60008080 rfl⟩

/-! ## Destination prefix: write mask -/

/-- The write mask of `NEONMapPrefixD` is `0xF` exactly when none of the bits
8 to 11 of the destination prefix is set. -/
theorem writeMask_full_iff (x : Nat) : not32 x &&& 0xF = 0xF ↔ x &&& 0xF = 0 := by
  have h1 : not32 x &&& 0xF = 0xF ^^^ (x % 16) := by
    unfold not32
    rw [Nat.and_xor_distrib_right]
    have e1 : (x % 2 ^ 32) &&& 0xF = x % 16 := by
      have h := @Nat.and_pow_two_sub_one_eq_mod (x % 2 ^ 32) 4
      have e2 : x % 2 ^ 32 % 2 ^ 4 = x % 2 ^ 4 := Nat.mod_mod_of_dvd x (by norm_num)
      rw [e2] at h
      simpa using h
    have e3 : (0xFFFFFFFF : Nat) &&& 0xF = 0xF := by decide
    rw [e1, e3]
  have h2 : x &&& 0xF = x % 16 := by
    have := @Nat.and_pow_two_sub_one_eq_mod x 4
    simpa using this
  rw [h1, h2]
  have hlt : x % 16 < 16 := Nat.mod_lt _ (by norm_num)
  generalize x % 16 = z at hlt
  interval_cases z <;> decide

/-- With working register equal to backing register, `NEONApplyPrefixD` emits no
`VMOV`. -/
theorem NEONApplyPrefixD_no_merge (js : JitState) (j : Jit σ) (r : ARMReg) (sz : VectorSize)
    (vd vm : ARMReg)
    (h : Event.VMOV vd vm ∈ (NEONApplyPrefixD js j { rd := r, backingRd := r, sz := sz }).code) :
    Event.VMOV vd vm ∈ j.code := by
  simp only [NEONApplyPrefixD, emitClamp, MatchSize] at h
  split_ifs at h <;> simp_all [Jit.emit]

/-- Claim C8, as the code has it: when none of the four exclusion bits 8 to 11
of the destination prefix is set, `NEONMapPrefixD` makes one call, the mapping
of the guest register with the given flags, and returns that register both as
working and as backing register (no temporary); `NEONApplyPrefixD` on this
binding then emits no `VMOV` merge copy, from whatever compiler state. -/
theorem NEONMapPrefixD_full_mask_direct (rc : RegCache σ) (js : JitState) (j : Jit σ)
    (vreg : Nat) (sz : VectorSize) (mapFlags : Nat)
    (hmask : (js.prefixD >>> 8) &&& 0xF = 0) :
    NEONMapPrefixD rc js j vreg sz mapFlags =
        ({ rd := (rc.QMapReg j.fpr vreg sz mapFlags).1,
           backingRd := (rc.QMapReg j.fpr vreg sz mapFlags).1, sz := sz },
         { fpr := (rc.QMapReg j.fpr vreg sz mapFlags).2,
           code := j.code ++ [Event.QMapReg vreg sz mapFlags] })
    ∧ ∀ (j2 : Jit σ) (vd vm : ARMReg),
        Event.VMOV vd vm ∈
            (NEONApplyPrefixD js j2 (NEONMapPrefixD rc js j vreg sz mapFlags).1).code →
          Event.VMOV vd vm ∈ j2.code := by
  have hfull : not32 (js.prefixD >>> 8) &&& 0xF = 0xF := (writeMask_full_iff _).2 hmask
  have heq : NEONMapPrefixD rc js j vreg sz mapFlags =
      ({ rd := (rc.QMapReg j.fpr vreg sz mapFlags).1,
         backingRd := (rc.QMapReg j.fpr vreg sz mapFlags).1, sz := sz },
       { fpr := (rc.QMapReg j.fpr vreg sz mapFlags).2,
         code := j.code ++ [Event.QMapReg vreg sz mapFlags] }) := by
    simp [NEONMapPrefixD, hfull, Jit.QMapReg]
  refine ⟨heq, ?_⟩
  intro j2 vd vm hmem
  rw [heq] at hmem
  exact NEONApplyPrefixD_no_merge js j2 _ sz vd vm hmem

/-- Claim C8, amended, at a pair with the empty destination prefix. -/
theorem NEONMapPrefixD_full_mask_direct_witness :
    ((knownPrefixes 0xE4 0xE4 0).prefixD >>> 8) &&& 0xF = 0
    ∧ (NEONMapPrefixD exampleCache (knownPrefixes 0xE4 0xE4 0) emptyJit 1 V_Pair 3 =
        ({ rd := (exampleCache.QMapReg emptyJit.fpr 1 V_Pair 3).1,
           backingRd := (exampleCache.QMapReg emptyJit.fpr 1 V_Pair 3).1, sz := V_Pair },
         { fpr := (exampleCache.QMapReg emptyJit.fpr 1 V_Pair 3).2,
           code := emptyJit.code ++ [Event.QMapReg 1 V_Pair 3] })
      ∧ ∀ (j2 : Jit Nat) (vd vm : ARMReg),
          Event.VMOV vd vm ∈
              (NEONApplyPrefixD (knownPrefixes 0xE4 0xE4 0) j2
                (NEONMapPrefixD exampleCache (knownPrefixes 0xE4 0xE4 0) emptyJit 1
                  V_Pair 3).1).code →
            Event.VMOV vd vm ∈ j2.code) :=
  ⟨by decide, NEONMapPrefixD_full_mask_direct exampleCache (knownPrefixes 0xE4 0xE4 0)
    emptyJit 1 V_Pair 3 (by decide)⟩

/-- Claim C8 fails as stated: for a pair, the destination prefix `0x400` excludes
neither lane 0 nor lane 1 (only bit 10 is set), yet `NEONMapPrefixD` allocates a
temporary as working register, different from the backing register, and
`NEONApplyPrefixD` emits the merge copy. -/
theorem NEONMapPrefixD_pair_upper_bit_counterexample :
    (∀ i, i < GetNumVectorElements V_Pair → (0x400 >>> (8 + i)) &&& 1 = 0)
    ∧ (NEONMapPrefixD exampleCache (knownPrefixes 0xE4 0xE4 0x400) emptyJit 1 V_Pair 3).1
        = { rd := ARMReg.Q 12, backingRd := ARMReg.Q 5, sz := V_Pair }
    ∧ (NEONMapPrefixD exampleCache (knownPrefixes 0xE4 0xE4 0x400) emptyJit 1 V_Pair 3).2.code
        = [Event.QAllocTemp, Event.QMapReg 1 V_Pair 1]
    ∧ (NEONApplyPrefixD (knownPrefixes 0xE4 0xE4 0x400) emptyJit
        { rd := ARMReg.Q 12, backingRd := ARMReg.Q 5, sz := V_Pair }).code
        = [Event.VMOV (ARMReg.Q 5) (ARMReg.Q 12)] := by
  decide

/-- Claim C1 fails on the code: `vabs.q` from guest register 0 to guest register
1 under the destination prefix `0xA00`, which enables lanes 0 and 2 only.  The
merge emitted by `NEONApplyPrefixD` is a `VMOV` of the whole working register
`Q12` onto the backing register `Q5`, so the masked-out lane 1 of `Q5`, which
held 501 before, holds 401 afterwards, the lane of the working register. -/
theorem partial_write_mask_overwrites_masked_lane :
    (CompNEON_VV2Op exampleCache exampleFields (knownPrefixes 0xE4 0xE4 0xA00) (ARMReg.Q 0)
        emptyJit 0xD0018081).code =
      [Event.QMapReg 0 V_Quad 0, Event.QAllocTemp, Event.QMapReg 1 V_Quad 1,
       Event.VABS_F32 (ARMReg.Q 12) (ARMReg.Q 4), Event.VMOV (ARMReg.Q 5) (ARMReg.Q 12),
       Event.ReleaseSpillLocksAndDiscardTemps]
    ∧ exampleHost.q (ARMReg.Q 5) 1 = 501
    ∧ (run nullOps exampleHost
        (CompNEON_VV2Op exampleCache exampleFields (knownPrefixes 0xE4 0xE4 0xA00) (ARMReg.Q 0)
          emptyJit 0xD0018081).code).map (fun h => h.q (ARMReg.Q 5) 1) = some 401 := by
  decide

/-! ## Destination prefix: saturation -/

/-- Claim C4 fails on the code for a scalar: with saturation mode 1 on the one
lane (destination prefix `1`), `NEONApplyPrefixD` emits nothing, so no `VMIN`
and no `VMAX`: lane `i` is entered in the masks as `i << 1`, which is 0 for
lane 0. -/
theorem scalar_saturation_emits_no_clamp :
    satMasks 1 (GetNumVectorElements V_Single)
        = { sat1_mask := 0, sat3_mask := 0, full_mask := 0 }
    ∧ (NEONApplyPrefixD (knownPrefixes 0xE4 0xE4 1) emptyJit
        { rd := ARMReg.Q 4, backingRd := ARMReg.Q 4, sz := V_Single }).code = [] := by
  decide

/-- Claim C9 fails on the code when lane 0 is the lane with mode 1: for a pair
with mode 1 on lane 0 and mode 3 on lane 1 (destination prefix `0xD`) the
diagnostic `both_sat` is not logged; the code logs `partial_sat3` and clamps
the whole register to `[-1, 1]`. -/
theorem lane0_mixed_saturation_not_reported :
    satMasks 0xD (GetNumVectorElements V_Pair)
        = { sat1_mask := 0, sat3_mask := 2, full_mask := 2 }
    ∧ (NEONApplyPrefixD (knownPrefixes 0xE4 0xE4 0xD) emptyJit
        { rd := ARMReg.Q 4, backingRd := ARMReg.Q 4, sz := V_Pair }).code =
      [Event.ELOG LogMsg.partial_sat3,
       Event.MOVP2R R0 FloatPtr.one, Event.VLD1_all_lanes Q0 R0 true,
       Event.MOVP2R R0 FloatPtr.minus_one, Event.VMIN (ARMReg.Q 4) (ARMReg.Q 4) Q0,
       Event.VLD1_all_lanes Q0 R0 true, Event.VMAX (ARMReg.Q 4) (ARMReg.Q 4) Q0] := by
  decide

/-! ## Three-operand arithmetic and all-constant sources -/

/-- Claim C6 fails on the code: for `vadd.q` of guest registers 0 and 1 into
guest register 2, with identity prefixes, `CompNEON_VecDo3` emits the `VADD`,
releases twice and then calls the generic fallback for the same opcode, because
the function ends in `DISABLE`. -/
theorem VecDo3_vadd_also_falls_back :
    0x60018082 >>> 26 = 24 ∧ (0x60018082 >>> 23) &&& 7 = 0
    ∧ (CompNEON_VecDo3 exampleCache exampleFields (knownPrefixes 0xE4 0xE4 0) (ARMReg.Q 0)
        emptyJit 0x60018082).code =
      [Event.QMapReg 0 V_Quad 0, Event.QMapReg 1 V_Quad 0, Event.QMapReg 2 V_Quad 3,
       Event.VADD (ARMReg.Q 6) (ARMReg.Q 4) (ARMReg.Q 5),
       Event.ReleaseSpillLocksAndDiscardTemps, Event.ReleaseSpillLocksAndDiscardTemps,
       Event.Comp_Generic 0x60018082] := by
  decide

/-- Claim C7 fails on the code when a constant bit of a lane at or above the
lane count is set: for a pair with prefix `0xF0E4` (all four constant bits set)
the 4-bit constant mask `0xF` differs from the pair mask `3`, so
`NEONMapPrefixST` maps the source guest register and takes the general path. -/
theorem all_constant_pair_still_maps_source :
    (∀ i, i < GetNumVectorElements V_Pair → (0xF0E4 >>> (12 + i)) &&& 1 = 1)
    ∧ (NEONMapPrefixST exampleCache emptyJit 3 V_Pair 0xF0E4 0).2.code =
      [Event.QMapReg 3 V_Pair 0, Event.QAllocTemp,
       Event.VDUP (ARMReg.Q 12) (ARMReg.Q 7) 0,
       Event.MOVP2R R0 (FloatPtr.constantArray 0),
       Event.VLD1_lane (ARMReg.Q 12) R0 0 true,
       Event.MOVP2R R0 (FloatPtr.constantArray 1),
       Event.VLD1_lane (ARMReg.Q 12) R0 1 true] := by
  decide

/-! ## Releases -/

theorem releaseScan_none (evs : List Event) : releaseScan none evs = none := by
  induction evs with
  | nil => rfl
  | cons e es ih => simpa [releaseScan, List.foldl, releaseStep] using ih

/-- If a mapping is pending and the bookkeeping ends clean, a release follows
before any hand-over to the generic interpreter. -/
theorem releaseScan_pending (evs : List Event)
    (h : releaseScan (some true) evs = some false) :
    ∃ mid rest, evs = mid ++ Event.ReleaseSpillLocksAndDiscardTemps :: rest ∧
      ∀ x ∈ mid, x.isGeneric = false := by
  induction evs with
  | nil => simp [releaseScan] at h
  | cons e es ih =>
    by_cases hrel : e = Event.ReleaseSpillLocksAndDiscardTemps
    · exact ⟨[], es, by simp [hrel], by simp⟩
    · by_cases hgen : e.isGeneric = true
      · exfalso
        have hm : e.isMapping = false := by cases e <;> simp_all [Event.isGeneric, Event.isMapping]
        have : releaseStep (some true) e = none := by simp [releaseStep, hm, hrel, hgen]
        simp only [releaseScan, List.foldl_cons, this] at h
        have h2 := releaseScan_none es
        simp only [releaseScan] at h2
        rw [h2] at h
        exact Option.noConfusion h
      · have hst : releaseStep (some true) e = some true := by
          by_cases hm : e.isMapping = true <;> simp [releaseStep, hm, hrel, hgen]
        simp only [releaseScan, List.foldl_cons, hst] at h
        obtain ⟨mid, rest, he, hmid⟩ := ih h
        refine ⟨e :: mid, rest, by simp [he], ?_⟩
        intro x hx
        rcases List.mem_cons.mp hx with rfl | hx
        · simpa using hgen
        · exact hmid x hx

/-- A clean end of the bookkeeping gives the release discipline. -/
theorem releaseScan_sound (o : Bool) (evs : List Event)
    (h : releaseScan (some o) evs = some false) : ReleasedBeforeExit evs := by
  induction evs generalizing o with
  | nil =>
    intro pre e post he
    simp at he
  | cons x xs ih =>
    intro pre e post he hmap
    cases pre with
    | nil =>
      simp only [List.nil_append, List.cons.injEq] at he
      obtain ⟨rfl, rfl⟩ := he
      have hst : releaseStep (some o) x = some true := by simp [releaseStep, hmap]
      simp only [releaseScan, List.foldl_cons, hst] at h
      exact releaseScan_pending xs h
    | cons p ps =>
      simp only [List.cons_append, List.cons.injEq] at he
      obtain ⟨rfl, rfl⟩ := he
      simp only [releaseScan, List.foldl_cons] at h
      cases hst : releaseStep (some o) x with
      | none =>
        rw [hst] at h
        have h2 := releaseScan_none (ps ++ e :: post)
        simp only [releaseScan] at h2
        rw [h2] at h
        exact Option.noConfusion h
      | some o2 =>
        rw [hst] at h
        exact ih o2 h ps e post rfl hmap

/-- One more call moves the bookkeeping by one step. -/
theorem rel_emit (j : Jit σ) (e : Event) : (j.emit e).rel = releaseStep j.rel e := by
  simp [Jit.rel, Jit.emit, releaseScan, List.foldl_append]

/-- A mapping leaves a release pending. -/
theorem rel_QMapReg (rc : RegCache σ) (j : Jit σ) (r : Nat) (sz : VectorSize) (fl : Nat) :
    (j.QMapReg rc r sz fl).2.rel = j.rel.map (fun _ => true) := by
  simp only [Jit.rel, Jit.QMapReg, releaseScan, List.foldl_append, List.foldl_cons, List.foldl_nil]
  cases List.foldl releaseStep (some false) j.code <;> simp [releaseStep, Event.isMapping]

/-- A temporary allocation leaves a release pending. -/
theorem rel_QAllocTemp (rc : RegCache σ) (j : Jit σ) :
    (j.QAllocTemp rc).2.rel = j.rel.map (fun _ => true) := by
  simp only [Jit.rel, Jit.QAllocTemp, releaseScan, List.foldl_append, List.foldl_cons, List.foldl_nil]
  cases List.foldl releaseStep (some false) j.code <;> simp [releaseStep, Event.isMapping]

/-- A release clears the pending mapping. -/
theorem rel_Release (rc : RegCache σ) (j : Jit σ) :
    (j.Release rc).rel = j.rel.map (fun _ => false) := by
  simp only [Jit.rel, Jit.Release, releaseScan, List.foldl_append, List.foldl_cons, List.foldl_nil]
  cases List.foldl releaseStep (some false) j.code <;> simp [releaseStep, Event.isMapping]

/-- The macro `DISABLE` releases before it hands over: it ends clean. -/
theorem rel_DISABLE (rc : RegCache σ) (j : Jit σ) (op : Nat) :
    (DISABLE rc j op).rel = j.rel.map (fun _ => false) := by
  simp only [DISABLE, rel_emit, rel_Release]
  cases j.rel <;> simp [releaseStep, Event.isMapping, Event.isGeneric]

/-- A call that is neither a mapping, a release nor the fallback leaves the
bookkeeping as it is. -/
theorem rel_emit_plain (j : Jit σ) (e : Event) (h1 : e.isMapping = false)
    (h2 : e ≠ Event.ReleaseSpillLocksAndDiscardTemps) (h3 : e.isGeneric = false) :
    (j.emit e).rel = j.rel := by
  rw [rel_emit]
  cases j.rel <;> simp [releaseStep, h1, h2, h3]

/-- A loop whose body leaves the bookkeeping alone leaves it alone. -/
theorem rel_forRange (lo n : Nat) (body : Nat → Jit σ → Jit σ)
    (hbody : ∀ i s, (body i s).rel = s.rel) (s : Jit σ) :
    (forRange lo n body s).rel = s.rel := by
  induction n with
  | zero => rfl
  | succ n ih => simp [forRange, hbody, ih]

/-- A constant load leaves the bookkeeping alone. -/
theorem rel_loadConstLane (pfx : Nat) (ar : ARMReg) (i : Nat) (s : Jit σ) :
    (loadConstLane pfx ar i s).rel = s.rel := by
  simp [loadConstLane, rel_emit_plain, Event.isMapping, Event.isGeneric]

/-- The constant loop leaves the bookkeeping alone. -/
theorem rel_constLoop (pfx : Nat) (ar : ARMReg) (c : Nat → Prop) [DecidablePred c]
    (n : Nat) (s : Jit σ) :
    (forRange 0 n (fun i s => if c i then loadConstLane pfx ar i s else s) s).rel = s.rel := by
  apply rel_forRange
  intro i s
  split_ifs
  · exact rel_loadConstLane pfx ar i s
  · rfl

/-- The source pipeline always maps or allocates: a release is pending after it. -/
theorem rel_NEONMapPrefixST (rc : RegCache σ) (j : Jit σ) (r : Nat) (sz : VectorSize)
    (pfx fl : Nat) :
    (NEONMapPrefixST rc j r sz pfx fl).2.rel = j.rel.map (fun _ => true) := by
  simp only [NEONMapPrefixST]
  split
  · exact rel_QMapReg rc j r sz fl
  · split
    · have h := rel_constLoop pfx (j.QAllocTemp rc).1 (fun _ => True)
        (GetNumVectorElements sz) (j.QAllocTemp rc).2
      simp only [if_true] at h
      rw [h, rel_QAllocTemp]
    · rw [rel_constLoop]
      split_ifs <;>
        simp [rel_emit_plain, Event.isMapping, Event.isGeneric, rel_QAllocTemp, rel_QMapReg]

/-- The destination mapping leaves a release pending. -/
theorem rel_NEONMapPrefixD (rc : RegCache σ) (js : JitState) (j : Jit σ) (r : Nat)
    (sz : VectorSize) (fl : Nat) :
    (NEONMapPrefixD rc js j r sz fl).2.rel = j.rel.map (fun _ => true) := by
  simp only [NEONMapPrefixD]
  split_ifs <;> simp [rel_QAllocTemp, rel_QMapReg]

/-- A clamp leaves the bookkeeping alone. -/
theorem rel_emitClamp (j : Jit σ) (rd : ARMReg) (p : FloatPtr) :
    (emitClamp j rd p).rel = j.rel := by
  simp [emitClamp, rel_emit_plain, Event.isMapping, Event.isGeneric]

/-- The destination post-processing leaves the bookkeeping alone. -/
theorem rel_NEONApplyPrefixD (js : JitState) (j : Jit σ) (d : DestARMReg) :
    (NEONApplyPrefixD js j d).rel = j.rel := by
  simp only [NEONApplyPrefixD]
  split_ifs <;>
    simp [rel_emitClamp, rel_emit_plain, Event.isMapping, Event.isGeneric]

/-- The lines after the `switch` of `CompNEON_VecDo3` end clean. -/
theorem rel_VecDo3_tail (rc : RegCache σ) (js : JitState) (j : Jit σ) (d : DestARMReg)
    (op : Nat) : (VecDo3_tail rc js j d op).rel = j.rel.map (fun _ => false) := by
  simp [VecDo3_tail, rel_DISABLE, rel_Release, rel_NEONApplyPrefixD]

/-- The lines after the `switch` of `CompNEON_VV2Op` end clean. -/
theorem rel_VV2Op_tail (rc : RegCache σ) (js : JitState) (j : Jit σ) (d : DestARMReg) :
    (VV2Op_tail rc js j d).rel = j.rel.map (fun _ => false) := by
  simp [VV2Op_tail, rel_Release, rel_NEONApplyPrefixD]

/-- Every case of the `switch` of `CompNEON_VecDo3` ends clean. -/
theorem rel_VecDo3_switch (rc : RegCache σ) (js : JitState) (j : Jit σ) (vs vt : ARMReg)
    (vd : DestARMReg) (op : Nat) :
    (VecDo3_switch rc js j vs vt vd op).rel = j.rel.map (fun _ => false) := by
  simp only [VecDo3_switch]
  split_ifs <;>
    simp [rel_DISABLE, rel_VecDo3_tail, rel_emit_plain, Event.isMapping, Event.isGeneric]

/-- The handler `CompNEON_VecDo3` ends clean on every path. -/
theorem rel_CompNEON_VecDo3 (rc : RegCache σ) (f : OpFields) (js : JitState)
    (u : ARMReg) (j : Jit σ) (op : Nat) :
    (CompNEON_VecDo3 rc f js u j op).rel = j.rel.map (fun _ => false) := by
  simp only [CompNEON_VecDo3]
  split
  · exact rel_DISABLE rc j op
  · simp [rel_VecDo3_switch, rel_NEONMapPrefixD, rel_NEONMapPrefixST, NEONMapPrefixS,
      NEONMapPrefixT]

/-- Every case of the `switch` of `CompNEON_VV2Op` ends clean. -/
theorem rel_VV2Op_switch (rc : RegCache σ) (js : JitState) (j : Jit σ) (vs : ARMReg)
    (vd : DestARMReg) (op : Nat) :
    (VV2Op_switch rc js j vs vd op).rel = j.rel.map (fun _ => false) := by
  simp only [VV2Op_switch]
  split_ifs <;>
    simp [rel_DISABLE, rel_VV2Op_tail, rel_emit_plain, Event.isMapping, Event.isGeneric]

/-- The handler `CompNEON_VV2Op` ends clean on every path. -/
theorem rel_CompNEON_VV2Op (rc : RegCache σ) (f : OpFields) (js : JitState)
    (u : ARMReg) (j : Jit σ) (op : Nat) (hj : j.rel = some false) :
    (CompNEON_VV2Op rc f js u j op).rel = some false := by
  simp only [CompNEON_VV2Op]
  split
  · simp [rel_DISABLE, hj]
  · split
    · exact hj
    · simp [rel_VV2Op_switch, rel_NEONMapPrefixD, rel_NEONMapPrefixST, NEONMapPrefixS, hj]

/-- The address computation of `CompNEON_SVQ` leaves the mapping pending. -/
theorem rel_SVQ_address (g : GprEnv) (j : Jit σ) (rs : Nat) (imm : Int)
    (hj : j.rel = some true) : (SVQ_address g j rs imm).1.rel = some true := by
  simp only [SVQ_address]
  split_ifs <;>
    simp [rel_emit_plain, rel_emit, releaseStep, Event.isMapping, Event.isGeneric, hj]

/-- The handler `CompNEON_SVQ` ends clean on every path. -/
theorem rel_CompNEON_SVQ (rc : RegCache σ) (f : OpFields) (g : GprEnv) (j : Jit σ)
    (op : Nat) (hj : j.rel = some false) :
    (CompNEON_SVQ rc f g j op).rel = some false := by
  simp only [CompNEON_SVQ]
  split_ifs <;>
    simp [rel_DISABLE, rel_Release, rel_emit_plain, Event.isMapping, Event.isGeneric,
      rel_SVQ_address, rel_QMapReg, hj]

/-- Under the release discipline no mapping or allocation comes after the last
release: a tail of the calls without a release holds no mapping. -/
theorem no_mapping_after_last_release (evs : List Event) (h : ReleasedBeforeExit evs)
    (pre post : List Event) (hsplit : evs = pre ++ post)
    (hpost : ∀ x ∈ post, x ≠ Event.ReleaseSpillLocksAndDiscardTemps) :
    ∀ x ∈ post, x.isMapping = false := by
  intro x hx
  by_contra hmap
  have hmap2 : x.isMapping = true := by simpa using hmap
  obtain ⟨a, b, hab⟩ := List.append_of_mem hx
  have hevs : evs = (pre ++ a) ++ x :: b := by rw [hsplit, hab, List.append_assoc]
  obtain ⟨mid, rest, hb, _⟩ := h (pre ++ a) x b hevs hmap2
  refine hpost Event.ReleaseSpillLocksAndDiscardTemps ?_ rfl
  rw [hab, hb]
  simp

/-- Claim C10: for every handler, opcode, prefix state and register cache, in
the calls the handler makes each register mapping or temporary allocation is
followed by a release of spill locks and temporaries, with no hand-over to the
generic interpreter in between; and no mapping or allocation comes after the
last release (a tail of the calls without a release holds no mapping). -/
theorem handlers_release_before_exit (rc : RegCache σ) (e : Env) (h : Handler) (s : σ)
    (op : Nat) :
    ReleasedBeforeExit (CompNEON rc e h { fpr := s, code := [] } op).code
    ∧ ∀ pre post, (CompNEON rc e h { fpr := s, code := [] } op).code = pre ++ post →
        (∀ x ∈ post, x ≠ Event.ReleaseSpillLocksAndDiscardTemps) →
        ∀ x ∈ post, x.isMapping = false := by
  have hmain : ReleasedBeforeExit (CompNEON rc e h { fpr := s, code := [] } op).code := by
    apply releaseScan_sound false
    have h0 : (({ fpr := s, code := [] } : Jit σ)).rel = some false := rfl
    show (CompNEON rc e h { fpr := s, code := [] } op).rel = some false
    cases h <;>
      simp [CompNEON, rel_CompNEON_VecDo3, rel_CompNEON_VV2Op, rel_CompNEON_SVQ, rel_DISABLE,
        h0, CompNEON_SV, CompNEON_VVectorInit, CompNEON_VMatrixInit, CompNEON_VDot,
        CompNEON_Mftv, CompNEON_Vmtvc, CompNEON_Vmmov, CompNEON_VScl, CompNEON_Vmmul,
        CompNEON_Vmscl, CompNEON_Vtfm, CompNEON_VHdp, CompNEON_VCrs, CompNEON_VDet,
        CompNEON_Vi2x, CompNEON_Vx2i, CompNEON_Vf2i, CompNEON_Vi2f, CompNEON_Vh2f,
        CompNEON_Vcst, CompNEON_Vhoriz, CompNEON_VRot, CompNEON_VIdt, CompNEON_Vcmp,
        CompNEON_Vcmov, CompNEON_Viim, CompNEON_Vfim, CompNEON_VCrossQuat, CompNEON_Vsgn,
        CompNEON_Vocp]
  exact ⟨hmain, fun pre post hsplit hpost =>
    no_mapping_after_last_release _ hmain pre post hsplit hpost⟩

/-! ## Identity source prefix and partial write mask -/

/-- Claim C11: with the canonical identity prefix `0xE4`, for every guest
register, shape and map flags, `NEONMapPrefixST` makes one call, the mapping of
the guest register with the given flags, and returns the register that call
hands out: no host instruction is emitted and no temporary is allocated. -/
theorem NEONMapPrefixST_identity_is_plain_map (rc : RegCache σ) (j : Jit σ) (mipsReg : Nat)
    (sz : VectorSize) (mapFlags : Nat) :
    NEONMapPrefixST rc j mipsReg sz 0xE4 mapFlags =
      ((rc.QMapReg j.fpr mipsReg sz mapFlags).1,
       { fpr := (rc.QMapReg j.fpr mipsReg sz mapFlags).2,
         code := j.code ++ [Event.QMapReg mipsReg sz mapFlags] }) := by
  simp [NEONMapPrefixST, Jit.QMapReg]

/-- Clearing `MAP_NOINIT` from 32-bit flags clears bit 1 and keeps every other bit. -/
theorem clear_noinit_testBit (fl : Nat) (hfl : fl < 2 ^ 32) (k : Nat) :
    (fl &&& not32 MAP_NOINIT).testBit k = (fl.testBit k && decide (k ≠ 1)) := by
  have hc : not32 MAP_NOINIT = (2 ^ 32 - 1) ^^^ 2 ^ 1 := by decide
  rw [Nat.testBit_and, hc, Nat.testBit_xor, Nat.testBit_two_pow_sub_one, Nat.testBit_two_pow]
  by_cases hk : k < 32
  · by_cases h1 : k = 1
    · subst h1; simp
    · have : ¬ (1 = k) := fun h => h1 h.symm
      simp [hk, h1, this]
  · have hbig : fl.testBit k = false := by
      apply Nat.testBit_lt_two_pow
      calc fl < 2 ^ 32 := hfl
        _ ≤ 2 ^ k := Nat.pow_le_pow_right (by norm_num) (by omega)
    simp [hbig]

/-- Claim C12: when some exclusion bit 8 to 11 of the destination prefix is set,
for every 32-bit map flags `NEONMapPrefixD` makes two calls: it allocates a
temporary, which becomes the working register, and maps the guest register as
backing register with flags in which the `MAP_NOINIT` bit is clear and every
other bit is as the caller gave it.  With a register cache that never maps a
guest register onto a temporary it has just handed out, working and backing
register differ. -/
theorem NEONMapPrefixD_partial_mask_uses_temp (rc : RegCache σ) (js : JitState) (j : Jit σ)
    (vreg : Nat) (sz : VectorSize) (mapFlags : Nat)
    (hmask : (js.prefixD >>> 8) &&& 0xF ≠ 0) (hflags : mapFlags < 2 ^ 32)
    (hfresh : ∀ s v z fl, (rc.QMapReg (rc.QAllocTemp s).2 v z fl).1 ≠ (rc.QAllocTemp s).1) :
    NEONMapPrefixD rc js j vreg sz mapFlags =
        ({ rd := (rc.QAllocTemp j.fpr).1,
           backingRd :=
             (rc.QMapReg (rc.QAllocTemp j.fpr).2 vreg sz (mapFlags &&& not32 MAP_NOINIT)).1,
           sz := sz },
         { fpr := (rc.QMapReg (rc.QAllocTemp j.fpr).2 vreg sz (mapFlags &&& not32 MAP_NOINIT)).2,
           code := j.code ++
             [Event.QAllocTemp, Event.QMapReg vreg sz (mapFlags &&& not32 MAP_NOINIT)] })
    ∧ (mapFlags &&& not32 MAP_NOINIT) &&& MAP_NOINIT = 0
    ∧ (∀ k, k ≠ 1 → (mapFlags &&& not32 MAP_NOINIT).testBit k = mapFlags.testBit k)
    ∧ (NEONMapPrefixD rc js j vreg sz mapFlags).1.rd
        ≠ (NEONMapPrefixD rc js j vreg sz mapFlags).1.backingRd := by
  have hpart : ¬ (not32 (js.prefixD >>> 8) &&& 0xF = 0xF) := fun h =>
    hmask ((writeMask_full_iff _).1 h)
  have heq : NEONMapPrefixD rc js j vreg sz mapFlags =
        ({ rd := (rc.QAllocTemp j.fpr).1,
           backingRd :=
             (rc.QMapReg (rc.QAllocTemp j.fpr).2 vreg sz (mapFlags &&& not32 MAP_NOINIT)).1,
           sz := sz },
         { fpr := (rc.QMapReg (rc.QAllocTemp j.fpr).2 vreg sz (mapFlags &&& not32 MAP_NOINIT)).2,
           code := j.code ++
             [Event.QAllocTemp, Event.QMapReg vreg sz (mapFlags &&& not32 MAP_NOINIT)] }) := by
    simp [NEONMapPrefixD, hpart, Jit.QMapReg, Jit.QAllocTemp]
  refine ⟨heq, ?_, ?_, ?_⟩
  · apply Nat.eq_of_testBit_eq
    intro k
    rw [Nat.testBit_and, clear_noinit_testBit mapFlags hflags k]
    have h2 : MAP_NOINIT = 2 ^ 1 := rfl
    rw [h2, Nat.testBit_two_pow]
    by_cases h1 : k = 1
    · subst h1; simp
    · have : ¬ (1 = k) := fun h => h1 h.symm
      simp [this]
  · intro k hk
    rw [clear_noinit_testBit mapFlags hflags k]
    simp [hk]
  · rw [heq]
    exact fun h => hfresh _ _ _ _ h.symm

/-- Claim C12 at a quad with destination prefix `0xA00` and flags
`MAP_DIRTY | MAP_NOINIT`, on the example cache. -/
theorem NEONMapPrefixD_partial_mask_uses_temp_witness :
    (((knownPrefixes 0xE4 0xE4 0xA00).prefixD >>> 8) &&& 0xF ≠ 0 ∧ 3 < 2 ^ 32
      ∧ ∀ s v z fl, (exampleCache.QMapReg (exampleCache.QAllocTemp s).2 v z fl).1
          ≠ (exampleCache.QAllocTemp s).1)
    ∧ (NEONMapPrefixD exampleCache (knownPrefixes 0xE4 0xE4 0xA00) emptyJit 1 V_Quad 3).1.rd
        ≠ (NEONMapPrefixD exampleCache (knownPrefixes 0xE4 0xE4 0xA00) emptyJit 1 V_Quad 3).1.backingRd :=
  ⟨⟨by decide, by decide, by intro s v z fl; simp [exampleCache]; omega⟩,
   (NEONMapPrefixD_partial_mask_uses_temp exampleCache (knownPrefixes 0xE4 0xE4 0xA00) emptyJit
      1 V_Quad 3 (by decide) (by decide)
      (by intro s v z fl; simp [exampleCache]; omega)).2.2.2⟩

/-! ## Unary operations -/

/-- Without destination prefix, `NEONApplyPrefixD` on a directly mapped register
emits nothing. -/
theorem NEONApplyPrefixD_empty_prefix (js : JitState) (j : Jit σ) (r : ARMReg)
    (sz : VectorSize) (hD : js.prefixD = 0) :
    NEONApplyPrefixD js j { rd := r, backingRd := r, sz := sz } = j := by
  cases sz <;> simp [NEONApplyPrefixD, hD, satMasks, forRange, GetNumVectorElements]

/-- The call lists of `CompNEON_VV2Op`: with known prefixes, identity source
prefix, empty destination prefix and distinct source and destination guest
registers, the handler maps source and destination and then, by the
sub-opcode field: 0 emits one `VMOV`, 1 one `VABS`, 2 one `VNEG`, 16 loads the
constant `one` to all lanes of `Q0` and calls `VDIV` of `Q0` by the source, 22
emits `VSQRT` then `VABS` of the result, each followed by the release; every
other value emits none of these, releases and calls the generic fallback
once. -/
theorem CompNEON_VV2Op_core_sequence (rc : RegCache σ) (f : OpFields) (js : JitState)
    (vdUninit : ARMReg) (j : Jit σ) (op : Nat)
    (hknown : js.HasUnknownPrefix = false) (hS : js.prefixS = 0xE4) (hD : js.prefixD = 0)
    (hreg : f.VS op ≠ f.VD op) :
    let sz := f.GetVecSize op
    let ms := rc.QMapReg j.fpr (f.VS op) sz 0
    let vs := ms.1
    let flags := MAP_DIRTY ||| (if vdUninit = vs then 0 else MAP_NOINIT)
    let vd := (rc.QMapReg ms.2 (f.VD op) sz flags).1
    let pre := j.code ++ [Event.QMapReg (f.VS op) sz 0, Event.QMapReg (f.VD op) sz flags]
    let sub := (op >>> 16) &&& 0x1f
    let code := (CompNEON_VV2Op rc f js vdUninit j op).code
    (sub = 0 → code = pre ++ [Event.VMOV vd vs, Event.ReleaseSpillLocksAndDiscardTemps])
    ∧ (sub = 1 → code = pre ++ [Event.VABS_F32 vd vs, Event.ReleaseSpillLocksAndDiscardTemps])
    ∧ (sub = 2 → code = pre ++ [Event.VNEG_F32 vd vs, Event.ReleaseSpillLocksAndDiscardTemps])
    ∧ (sub = 16 → code = pre ++
        [Event.MOVP2R R0 FloatPtr.one, Event.VLD1_all_lanes Q0 R0 true, Event.VDIV vd Q0 vs,
         Event.ReleaseSpillLocksAndDiscardTemps])
    ∧ (sub = 22 → code = pre ++
        [Event.VSQRT vd vs, Event.VABS vd vd, Event.ReleaseSpillLocksAndDiscardTemps])
    ∧ (sub ≠ 0 → sub ≠ 1 → sub ≠ 2 → sub ≠ 16 → sub ≠ 22 → code = pre ++
        [Event.ReleaseSpillLocksAndDiscardTemps, Event.Comp_Generic op]) := by
  intro sz ms vs flags vd pre sub code
  have hfull : not32 (0 >>> 8) &&& 0xF = 0xF := by decide
  have hcode : code = (VV2Op_switch rc js
      { fpr := (rc.QMapReg ms.2 (f.VD op) sz flags).2, code := pre } vs
      { rd := vd, backingRd := vd, sz := sz } op).code := by
    simp only [code, CompNEON_VV2Op, hknown, hreg, NEONMapPrefixS, hS, NEONMapPrefixST,
      NEONMapPrefixD, hD, hfull, Jit.QMapReg]
    simp [pre, vd, flags, vs, ms, sz]
  have hsw : ∀ v : Nat, (op >>> 16) &&& 0x1f = v →
      code = (if v = 0 then pre ++ [Event.VMOV vd vs, Event.ReleaseSpillLocksAndDiscardTemps]
        else if v = 1 then
          pre ++ [Event.VABS_F32 vd vs, Event.ReleaseSpillLocksAndDiscardTemps]
        else if v = 2 then
          pre ++ [Event.VNEG_F32 vd vs, Event.ReleaseSpillLocksAndDiscardTemps]
        else if v = 16 then
          pre ++ [Event.MOVP2R R0 FloatPtr.one, Event.VLD1_all_lanes Q0 R0 true,
            Event.VDIV vd Q0 vs, Event.ReleaseSpillLocksAndDiscardTemps]
        else if v = 22 then
          pre ++ [Event.VSQRT vd vs, Event.VABS vd vd, Event.ReleaseSpillLocksAndDiscardTemps]
        else pre ++ [Event.ReleaseSpillLocksAndDiscardTemps, Event.Comp_Generic op]) := by
    intro v hv
    rw [hcode]
    simp only [VV2Op_switch, hv, VV2Op_tail, NEONApplyPrefixD_empty_prefix js _ _ _ hD,
      Jit.emit, Jit.Release, DISABLE, MatchSize]
    split_ifs <;> simp
  refine ⟨?_, ?_, ?_, ?_, ?_, ?_⟩
  · intro h0
    simpa using hsw 0 h0
  · intro h0
    simpa using hsw 1 h0
  · intro h0
    simpa using hsw 2 h0
  · intro h0
    simpa using hsw 16 h0
  · intro h0
    simpa using hsw 22 h0
  · intro h0 h1 h2 h16 h22
    have h := hsw sub rfl
    simpa [h0, h1, h2, h16, h22] using h

/-- The offset field `op & 0xFFFC` is a multiple of 4 below 65536. -/
theorem offset_field_bounds (op : Nat) :
    (op &&& 0xFFFC) % 4 = 0 ∧ op &&& 0xFFFC ≤ 0xFFFC := by
  constructor
  · have h := @Nat.and_pow_two_sub_one_eq_mod (op &&& 0xFFFC) 2
    have h2 : (op &&& 0xFFFC) &&& (2 ^ 2 - 1) = 0 := by
      rw [Nat.and_assoc]
      have : (0xFFFC : Nat) &&& (2 ^ 2 - 1) = 0 := by decide
      rw [this]
      simp
    rw [h2] at h
    simpa using h.symm
  · exact Nat.and_le_right

/-- The decoded vector register index of `CompNEON_SVQ` is below 64. -/
theorem SVQ_vt_lt (op : Nat) : ((op >>> 16) &&& 0x1f) ||| ((op &&& 1) <<< 5) < 64 := by
  have h1 : (op >>> 16) &&& 0x1f < 2 ^ 6 := by
    have := @Nat.and_le_right (op >>> 16) 0x1f
    omega
  have h2 : (op &&& 1) <<< 5 < 2 ^ 6 := by
    have := @Nat.and_le_right op 1
    rw [Nat.shiftLeft_eq]
    omega
  exact Nat.or_lt_two_pow h1 h2

/-- Claim C19: for every opcode word, the vector register index decoded by
`CompNEON_SVQ` is below 64 and the decoded offset is the sign extension of the
16-bit field `op & 0xFFFC`: congruent to it modulo 65536, a multiple of 4,
between -32768 and 32764.  When the base register holds a known immediate `b`,
the address is `(imm + b) mod 2^32` masked with `0x3FFFFFFF`, so below `2^30`,
and `R0` is set to that address plus the host memory base, for `lv.q` (54) and
for `sv.q` (62). -/
theorem CompNEON_SVQ_decode (rc : RegCache σ) (f : OpFields) (g : GprEnv) (j : Jit σ)
    (op : Nat) (himm : g.IsImm (f.RS op) = true) :
    let imm := signedShort (op &&& 0xFFFC)
    let vt := ((op >>> 16) &&& 0x1f) ||| ((op &&& 1) <<< 5)
    let addr := ((imm + (g.GetImm (f.RS op) : Int)) % 2 ^ 32).toNat &&& 0x3FFFFFFF
    let code := (CompNEON_SVQ rc f g j op).code
    vt < 64
    ∧ imm % 65536 = ((op &&& 0xFFFC : Nat) : Int)
    ∧ imm % 4 = 0 ∧ -32768 ≤ imm ∧ imm ≤ 32764
    ∧ addr < 2 ^ 30
    ∧ (op >>> 26 = 54 → code = j.code ++
        [Event.QMapReg vt V_Quad (MAP_DIRTY ||| MAP_NOINIT),
         Event.gprSetRegImm R0 ((addr + g.memoryBase) % 2 ^ 32),
         Event.VLD1 (rc.QMapReg j.fpr vt V_Quad (MAP_DIRTY ||| MAP_NOINIT)).1 R0 2,
         Event.ReleaseSpillLocksAndDiscardTemps])
    ∧ (op >>> 26 = 62 → code = j.code ++
        [Event.QMapReg vt V_Quad 0,
         Event.gprSetRegImm R0 ((addr + g.memoryBase) % 2 ^ 32),
         Event.VST1 (rc.QMapReg j.fpr vt V_Quad 0).1 R0 2,
         Event.ReleaseSpillLocksAndDiscardTemps]) := by
  intro imm vt addr code
  obtain ⟨hmod, hle⟩ := offset_field_bounds op
  have himmdef : imm = signedShort (op &&& 0xFFFC) := rfl
  have hx : (op &&& 0xFFFC) % 65536 = op &&& 0xFFFC := Nat.mod_eq_of_lt (by omega)
  refine ⟨SVQ_vt_lt op, ?_, ?_, ?_, ?_, ?_, ?_, ?_⟩
  · rw [himmdef]; unfold signedShort; rw [hx]; split_ifs <;> omega
  · rw [himmdef]; unfold signedShort; rw [hx]; split_ifs <;> omega
  · rw [himmdef]; unfold signedShort; rw [hx]; split_ifs <;> omega
  · rw [himmdef]; unfold signedShort; rw [hx]; split_ifs <;> omega
  · have := @Nat.and_le_right ((imm + (g.GetImm (f.RS op) : Int)) % 2 ^ 32).toNat 0x3FFFFFFF
    show _ &&& 0x3FFFFFFF < 2 ^ 30
    omega
  · intro h54
    simp [code, CompNEON_SVQ, h54, SVQ_address, himm, Jit.QMapReg, Jit.emit, Jit.Release,
      addr, imm, vt]
  · intro h62
    simp [code, CompNEON_SVQ, h62, SVQ_address, himm, Jit.QMapReg, Jit.emit, Jit.Release,
      addr, imm, vt]

/-- Claim C19 at `lv.q` with offset field `0xFFF0` (that is -16) and register
index 32. -/
theorem CompNEON_SVQ_decode_witness :
    (exampleGpr.IsImm (exampleFields.RS 0xD800FFF1) = true ∧ 0xD800FFF1 >>> 26 = 54)
    ∧ (CompNEON_SVQ exampleCache exampleFields exampleGpr emptyJit 0xD800FFF1).code =
      [Event.QMapReg 32 V_Quad 3, Event.gprSetRegImm R0 0x18800FF0,
       Event.VLD1 (ARMReg.Q 4) R0 2, Event.ReleaseSpillLocksAndDiscardTemps] :=
  ⟨by decide, (CompNEON_SVQ_decode exampleCache exampleFields exampleGpr emptyJit 0xD800FFF1
    (by decide)).2.2.2.2.2.2.1 (by decide)⟩

/-! ## Unfinished and inverted paths -/

/-- Claim C13 fails on the code: the two tests of the permute step are
inverted.  For a quad with identity selectors and all negate flags (prefix
`0xF00E4`) the code emits a broadcast `VDUP` of lane 0 where a plain copy is due;
for a quad in which all lanes select lane 0 (prefix `0xF0000`) it emits the plain
copy `VMOV` and no broadcast. -/
theorem permute_step_copy_and_broadcast_swapped :
    (∀ i, i < GetNumVectorElements V_Quad → regnum 0xF00E4 i = i)
    ∧ (NEONMapPrefixST exampleCache emptyJit 3 V_Quad 0xF00E4 0).2.code =
      [Event.QMapReg 3 V_Quad 0, Event.QAllocTemp,
       Event.VDUP (ARMReg.Q 12) (ARMReg.Q 7) 0,
       Event.VNEG_F32 (ARMReg.Q 12) (ARMReg.Q 12)]
    ∧ (∀ i, i < GetNumVectorElements V_Quad → regnum 0xF0000 i = 0)
    ∧ (NEONMapPrefixST exampleCache emptyJit 3 V_Quad 0xF0000 0).2.code =
      [Event.QMapReg 3 V_Quad 0, Event.QAllocTemp,
       Event.VMOV (ARMReg.Q 12) (ARMReg.Q 7),
       Event.VNEG_F32 (ARMReg.Q 12) (ARMReg.Q 12)] := by
  decide

/-- Claim C14 fails on the code: for the pair `vmov` under the source prefix
`0x1E4` (absolute value on lane 0 only, no constants) the call list holds no
`VABS` and no generic fallback, and lane 0 of the destination `Q5` ends as
`-1.0`, the untransformed source lane, where `|-1.0| = 1.0` is due. -/
theorem partial_abs_silently_dropped :
    absBit 0x1E4 0 = 1 ∧ absBit 0x1E4 1 = 0
    ∧ constantsBit 0x1E4 0 = 0 ∧ constantsBit 0x1E4 1 = 0
    ∧ (CompNEON_VV2Op exampleCache exampleFields (knownPrefixes 0x1E4 0xE4 0) (ARMReg.Q 0)
        emptyJit 0xD0000081).code =
      [Event.QMapReg 0 V_Pair 0, Event.QAllocTemp,
       Event.VDUP (ARMReg.Q 12) (ARMReg.Q 4) 0,
       Event.QMapReg 1 V_Pair 3, Event.VMOV (ARMReg.Q 5) (ARMReg.Q 12),
       Event.ReleaseSpillLocksAndDiscardTemps]
    ∧ minusOneHost.q (ARMReg.Q 4) 0 = 0xBF800000
    ∧ fabs 0xBF800000 = 0x3F800000
    ∧ (run nullOps minusOneHost
        (CompNEON_VV2Op exampleCache exampleFields (knownPrefixes 0x1E4 0xE4 0) (ARMReg.Q 0)
          emptyJit 0xD0000081).code).map (fun h => h.q (ARMReg.Q 5) 0) = some 0xBF800000 := by
  decide

/-- Claim C15 fails on the code: for a pair with mode 1 on lane 1 only
(destination prefix `0x4`) no diagnostic is logged and the whole register is
clamped; with mode 1 on lane 0 only (prefix `0x1`) nothing is emitted at all;
and for a quad with mode 3 on all four lanes (prefix `0xFF`) the diagnostic
`partial_sat3` is logged although the mask is full. -/
theorem partial_saturation_misreported :
    (NEONApplyPrefixD (knownPrefixes 0xE4 0xE4 0x4) emptyJit
        { rd := ARMReg.Q 4, backingRd := ARMReg.Q 4, sz := V_Pair }).code =
      [Event.MOVP2R R0 FloatPtr.one, Event.VLD1_all_lanes Q0 R0 true,
       Event.MOVP2R R0 FloatPtr.zero, Event.VMIN (ARMReg.Q 4) (ARMReg.Q 4) Q0,
       Event.VLD1_all_lanes Q0 R0 true, Event.VMAX (ARMReg.Q 4) (ARMReg.Q 4) Q0]
    ∧ (NEONApplyPrefixD (knownPrefixes 0xE4 0xE4 0x1) emptyJit
        { rd := ARMReg.Q 4, backingRd := ARMReg.Q 4, sz := V_Pair }).code = []
    ∧ (NEONApplyPrefixD (knownPrefixes 0xE4 0xE4 0xFF) emptyJit
        { rd := ARMReg.Q 4, backingRd := ARMReg.Q 4, sz := V_Quad }).code =
      [Event.ELOG LogMsg.partial_sat3,
       Event.MOVP2R R0 FloatPtr.one, Event.VLD1_all_lanes Q0 R0 true,
       Event.MOVP2R R0 FloatPtr.minus_one, Event.VMIN (ARMReg.Q 4) (ARMReg.Q 4) Q0,
       Event.VLD1_all_lanes Q0 R0 true, Event.VMAX (ARMReg.Q 4) (ARMReg.Q 4) Q0] := by
  decide

/-- Claim C16 fails on the code for the VFPU3 sub-opcodes without a case: for
primary opcode 27 with sub-opcode 0 on quads, under the destination prefix
`0xA00`, `CompNEON_VecDo3` runs `NEONApplyPrefixD` before it falls back, and the
merge `VMOV` writes the temporary `Q12`, which no instruction has set, onto the
backing register `Q6` of the destination. -/
theorem VecDo3_unimplemented_vfpu3_still_merges :
    0x6C018082 >>> 26 = 27 ∧ (0x6C018082 >>> 23) &&& 7 = 0
    ∧ (CompNEON_VecDo3 exampleCache exampleFields (knownPrefixes 0xE4 0xE4 0xA00) (ARMReg.Q 0)
        emptyJit 0x6C018082).code =
      [Event.QMapReg 0 V_Quad 0, Event.QMapReg 1 V_Quad 0, Event.QAllocTemp,
       Event.QMapReg 2 V_Quad 1, Event.VMOV (ARMReg.Q 6) (ARMReg.Q 12),
       Event.ReleaseSpillLocksAndDiscardTemps, Event.ReleaseSpillLocksAndDiscardTemps,
       Event.Comp_Generic 0x6C018082] := by
  decide

/-- Claim C18 fails on the code: the flag is chosen by comparing the not yet
set `vd` with the host registers of the sources, not by the guest register
indices.  With `vd = vs` (guest register 0) in `CompNEON_VecDo3`, and with
`vd = vs` (guest register 1) in `CompNEON_VV2Op`, the destination is mapped
with `MAP_DIRTY | MAP_NOINIT` when the unset `vd` reads as `Q0`; with three
distinct guest registers it is mapped with `MAP_DIRTY` alone when the unset
`vd` reads as `Q4`, the host register of the source. -/
theorem noinit_flag_ignores_guest_registers :
    exampleFields.VD 0x60018080 = exampleFields.VS 0x60018080
    ∧ (CompNEON_VecDo3 exampleCache exampleFields (knownPrefixes 0xE4 0xE4 0) (ARMReg.Q 0)
        emptyJit 0x60018080).code =
      [Event.QMapReg 0 V_Quad 0, Event.QMapReg 1 V_Quad 0,
       Event.QMapReg 0 V_Quad (MAP_DIRTY ||| MAP_NOINIT),
       Event.VADD (ARMReg.Q 4) (ARMReg.Q 4) (ARMReg.Q 5),
       Event.ReleaseSpillLocksAndDiscardTemps, Event.ReleaseSpillLocksAndDiscardTemps,
       Event.Comp_Generic 0x60018080]
    ∧ exampleFields.VD 0xD0018181 = exampleFields.VS 0xD0018181
    ∧ (CompNEON_VV2Op exampleCache exampleFields (knownPrefixes 0xE4 0xE4 0) (ARMReg.Q 0)
        emptyJit 0xD0018181).code =
      [Event.QMapReg 1 V_Quad 0, Event.QMapReg 1 V_Quad (MAP_DIRTY ||| MAP_NOINIT),
       Event.VABS_F32 (ARMReg.Q 5) (ARMReg.Q 5), Event.ReleaseSpillLocksAndDiscardTemps]
    ∧ exampleFields.VD 0x60018082 ≠ exampleFields.VS 0x60018082
    ∧ exampleFields.VD 0x60018082 ≠ exampleFields.VT 0x60018082
    ∧ (CompNEON_VecDo3 exampleCache exampleFields (knownPrefixes 0xE4 0xE4 0) (ARMReg.Q 4)
        emptyJit 0x60018082).code =
      [Event.QMapReg 0 V_Quad 0, Event.QMapReg 1 V_Quad 0,
       Event.QMapReg 2 V_Quad MAP_DIRTY,
       Event.VADD (ARMReg.Q 6) (ARMReg.Q 4) (ARMReg.Q 5),
       Event.ReleaseSpillLocksAndDiscardTemps, Event.ReleaseSpillLocksAndDiscardTemps,
       Event.Comp_Generic 0x60018082] := by
  decide

end MIPSComp
